import Mathlib

set_option maxRecDepth 100000
set_option maxHeartbeats 4000000

/-!
Shallow embedding of the SPIFFS_ImageReader library
(src/SPIFFS_ImageReader.h, src/SPIFFS_ImageReader.cpp).

The BMP decoding core is translated definition by definition from the C++
source.  Machine integers are modelled as Nat or Int with explicit
wrap-arounds (`% 65536` for uint16_t, `% 256` for uint8_t, `% 4294967296`
for uint32_t) exactly where the C++ types force them.

External collaborators (the SPIFFS `File` byte source, the heap allocator
behind `new GFXcanvas16`, the `Adafruit_SPITFT` display sink) are not part
of the repository sources; they are modelled from the spec:
  - a file is a byte stream addressed by absolute position; reading past
    end-of-stream yields zero-filled values (spec section 4.1);
  - allocation success is an oracle `Nat → Bool` giving the outcome of the
    i-th `new` performed by a call;
  - the display sink records the sequence of rectangular blits it receives.
-/

/-- NUM_CANVAS, from SPIFFS_ImageReader.h line 22. -/
def NUM_CANVAS : Nat := 12

/-- CANVAS_HEIGHT, from SPIFFS_ImageReader.h line 23. -/
def CANVAS_HEIGHT : Nat := 20

/-- BUFPIXELS for the non-AVR case, from SPIFFS_ImageReader.cpp line 52. -/
def BUFPIXELS : Nat := 200

/-- sizeof sdbuf, where `uint8_t sdbuf[3 * BUFPIXELS]` (cpp line 245). -/
def sdbufSize : Nat := 3 * BUFPIXELS

/-- Modelled from the spec: the Byte Source Adapter is a positioned byte
stream over a named file; we represent the stream contents as a total
function from absolute byte position to byte value (reading past
end-of-stream yields zero-filled values, so a finite file is a function
that is 0 beyond its length). -/
def ByteFile : Type := Nat → Nat

/-- Modelled from the spec: a single byte delivered by the Byte Source
Adapter; the adapter hands out uint8_t values, so the stream value is
truncated to a byte. -/
def fileByte (f : ByteFile) (p : Nat) : Nat := f p % 256

/-- SPIFFS_ImageReader::readLE16 (cpp lines 455-467): two consecutive bytes
composed little-endian. -/
def readLE16 (f : ByteFile) (p : Nat) : Nat :=
  fileByte f p + 256 * fileByte f (p + 1)

/-- SPIFFS_ImageReader::readLE32 (cpp lines 475-488): four consecutive bytes
composed little-endian. -/
def readLE32 (f : ByteFile) (p : Nat) : Nat :=
  fileByte f p + 256 * fileByte f (p + 1) + 65536 * fileByte f (p + 2) +
    16777216 * fileByte f (p + 3)

/-- Conversion of a uint32 value to a C `int` (32-bit two's complement),
used where `bmpWidth = readLE32()` stores an unsigned read in an int. -/
def toInt32 (n : Nat) : Int :=
  if n % 4294967296 < 2147483648 then ((n % 4294967296 : Nat) : Int)
  else ((n % 4294967296 : Nat) : Int) - 4294967296

/-- Reinterpretation of a uint16 bit pattern as int16_t, used where
SPIFFS_Image::width()/height() return the uint16 fields `w`/`h` as
int16_t. -/
def toInt16 (n : Nat) : Int :=
  if n % 65536 < 32768 then ((n % 65536 : Nat) : Int)
  else ((n % 65536 : Nat) : Int) - 65536

/-- Conversion of a C `int` value to uint16_t (assignment `img->w = bmpWidth`
and the GFXcanvas16 constructor arguments): reduction modulo 2^16. -/
def u16ofInt (i : Int) : Nat := (i.emod 65536).toNat

/-- Wrap-around of int16_t arithmetic (`y += CANVAS_HEIGHT` on an int16_t
parameter in SPIFFS_Image::draw). -/
def i16wrap (i : Int) : Int := (i + 32768).emod 65536 - 32768

/-- ImageReturnCode, from SPIFFS_ImageReader.h lines 32-38. -/
inductive ImageReturnCode where
  | IMAGE_SUCCESS
  | IMAGE_ERR_FILE_NOT_FOUND
  | IMAGE_ERR_FORMAT
  | IMAGE_ERR_MALLOC
deriving DecidableEq

/-- ImageFormat, from SPIFFS_ImageReader.h lines 41-45. -/
inductive ImageFormat where
  | IMAGE_NONE
  | IMAGE_16
deriving DecidableEq

/-- A GFXcanvas16 object (external Adafruit_GFX class): a fixed uint16 width
and height and a buffer of 16-bit pixels.  Modelled from the spec
(PixelBuffer: fixed-width bounded-height 2-D array of 16-bit color values,
dimensions fixed at allocation time); the constructor zero-fills the
buffer. -/
structure GFXcanvas16 where
  w16 : Nat
  h16 : Nat
  buf : List Nat
deriving DecidableEq

/-- SPIFFS_Image (header lines 51-73): uint16 `w`, `h`, the
`canvas[NUM_CANVAS]` array of owned canvas pointers (None = NULL), and the
format tag.  The C++ constructor leaves `w`/`h` uninitialized; the model
starts them at 0 (they are never read while format is IMAGE_NONE). -/
structure SPIFFS_Image where
  w : Nat
  h : Nat
  canvas : List (Option GFXcanvas16)
  format : ImageFormat
deriving DecidableEq

/-- SPIFFS_Image constructor (cpp lines 65-70): format IMAGE_NONE, all
canvas slots NULL. -/
def SPIFFS_Image.init : SPIFFS_Image :=
  ⟨0, 0, List.replicate NUM_CANVAS none, ImageFormat.IMAGE_NONE⟩

/-- SPIFFS_Image::dealloc (cpp lines 83-94): delete and NULL every canvas
slot, set format to IMAGE_NONE.  `w` and `h` are left unchanged. -/
def SPIFFS_Image.dealloc (img : SPIFFS_Image) : SPIFFS_Image :=
  { img with canvas := List.replicate NUM_CANVAS none,
             format := ImageFormat.IMAGE_NONE }

/-- SPIFFS_Image::width (cpp lines 100-108): 0 unless a 16-bit canvas image
is loaded, else the stored uint16 `w` returned as int16_t. -/
def SPIFFS_Image.width (img : SPIFFS_Image) : Int :=
  if img.format ≠ ImageFormat.IMAGE_NONE then
    if img.format = ImageFormat.IMAGE_16 then toInt16 img.w else 0
  else 0

/-- SPIFFS_Image::height (cpp lines 114-122). -/
def SPIFFS_Image.height (img : SPIFFS_Image) : Int :=
  if img.format ≠ ImageFormat.IMAGE_NONE then
    if img.format = ImageFormat.IMAGE_16 then toInt16 img.h else 0
  else 0

/-- One rectangular blit sent to the display sink
(`tft.drawRGBBitmap(x, y, buffer, w, h)`, cpp lines 144-145). -/
structure Blit where
  x : Int
  y : Int
  w16 : Nat
  h16 : Nat
  buf : List Nat
deriving DecidableEq

/-- The canvas iteration inside SPIFFS_Image::draw (cpp lines 140-148):
non-NULL slots are blitted in order and `y` advances by CANVAS_HEIGHT
(int16_t arithmetic) after each blit; NULL slots are skipped without
advancing `y`. -/
def drawLoop (x y : Int) : List (Option GFXcanvas16) → List Blit
  | [] => []
  | none :: rest => drawLoop x y rest
  | some c :: rest =>
      ⟨x, y, c.w16, c.h16, c.buf⟩ :: drawLoop x (i16wrap (y + (CANVAS_HEIGHT : Int))) rest

/-- SPIFFS_Image::draw (cpp lines 136-150): blits only when format is
IMAGE_16, else does nothing. -/
def SPIFFS_Image.draw (img : SPIFFS_Image) (x y : Int) : List Blit :=
  if img.format = ImageFormat.IMAGE_16 then drawLoop x y img.canvas else []

/-- The BMP header fields extracted by coreBMP (cpp lines 274-304), reading
sequentially from position 0: signature at 0, data offset at 10, header
size at 14, signed width at 18, signed height at 22 (negative means
top-down, stored here as absolute value plus the flip flag), planes at 26
and depth at 28 (both truncated to uint8_t), and, when headerSize > 12,
compression at 30 and palette size at 46.  `posAfter` is the file position
after the header reads. -/
structure BmpHeader where
  offset : Nat
  headerSize : Nat
  bmpWidth : Int
  bmpHeight : Nat
  flip : Bool
  planes : Nat
  depth : Nat
  compression : Nat
  colors : Nat
  posAfter : Nat
deriving DecidableEq

/-- Header parsing as performed by coreBMP (cpp lines 276-304). -/
def parseHeader (f : ByteFile) : BmpHeader :=
  let offset := readLE32 f 10
  let headerSize := readLE32 f 14
  let wI := toInt32 (readLE32 f 18)
  let hI := toInt32 (readLE32 f 22)
  let flip := decide (0 ≤ hI)
  let planes := readLE16 f 26 % 256
  let depth := readLE16 f 28 % 256
  let compression := if 12 < headerSize then readLE32 f 30 else 0
  let colors0 := if 12 < headerSize then readLE32 f 46 else 0
  let colors := if colors0 = 0 then 2 ^ depth else colors0
  ⟨offset, headerSize, wI, hI.natAbs, flip, planes, depth, compression, colors,
    if 12 < headerSize then 54 else 30⟩

/-- rowSize (cpp line 314): `((depth * bmpWidth + 31) / 32) * 4` computed in
C `int` arithmetic (truncating division) and stored in a uint32. -/
def rowSizeOf (depth : Nat) (bmpWidth : Int) : Nat :=
  (((Int.tdiv ((depth : Int) * bmpWidth + 31) 32) * 4).emod 4294967296).toNat

/-- The 24-bit BGR to 16-bit 5-6-5 pixel conversion (cpp lines 377-378). -/
def conv565 (r g b : Nat) : Nat :=
  ((r &&& 0xF8) <<< 8) ||| ((g &&& 0xFC) <<< 3) ||| (b >>> 3)

/-- The segment allocation loop of coreBMP (cpp lines 323-331).
`remaining` is the uint16_t remainingHeight; every iteration allocates a
canvas of height `min(CANVAS_HEIGHT, remaining)` and then subtracts the
fixed CANVAS_HEIGHT in uint16 arithmetic (wrapping below zero).  `alloc i`
tells whether the i-th `new GFXcanvas16` of this call succeeds (heap
oracle); on failure the slot stays NULL and the loop stops with
allDestsCreated = false.  Slots never reached stay NULL.  Returns
(allDestsCreated, the NUM_CANVAS slots). -/
def allocSegs (alloc : Nat → Bool) (bmpWidthI : Int) :
    Nat → Nat → Nat → Bool × List (Option GFXcanvas16)
  | _, 0, _ => (true, [])
  | i, slotsLeft + 1, remaining =>
      if remaining = 0 then (true, List.replicate (slotsLeft + 1) none)
      else
        let canvasHeight := if CANVAS_HEIGHT < remaining then CANVAS_HEIGHT else remaining
        let remaining2 := (remaining + 65536 - CANVAS_HEIGHT) % 65536
        if alloc i then
          let c : GFXcanvas16 :=
            ⟨u16ofInt bmpWidthI, canvasHeight,
              List.replicate (u16ofInt bmpWidthI * canvasHeight) 0⟩
          let rest := allocSegs alloc bmpWidthI (i + 1) slotsLeft remaining2
          (rest.1, some c :: rest.2)
        else (false, none :: List.replicate slotsLeft none)

/-- The mutable state of the scanline streaming loop (cpp lines 335-390):
the canvas slots being filled, the uint8_t currentCanvasIndex, the index
`cur` of the canvas that currentCanvas/currentDest point at, the uint32
destidx, the uint16 srcidx into sdbuf, the file offset `bufStart` that
sdbuf[0] corresponds to, and the file position. -/
structure DecodeState where
  canvas : List (Option GFXcanvas16)
  curIdx : Nat
  cur : Nat
  destidx : Nat
  srcidx : Nat
  bufStart : Nat
  filePos : Nat
deriving DecidableEq

/-- One iteration of the pixel loop (cpp lines 365-391): refill sdbuf from
the file when exhausted (advancing the file position by sizeof sdbuf),
consume three consecutive bytes B, G, R, convert to 5-6-5 and store at
destidx of the current canvas, then advance destidx, rolling over to the
next canvas slot when the current canvas is full.  currentCanvasIndex is a
uint8_t and wraps modulo 256; currentCanvas is only re-pointed while the
incremented index is below NUM_CANVAS.  Writing through a NULL canvas
pointer would be undefined behaviour in the C++; the model makes it a
no-op (no claim exercises that path). -/
def pixelStep (f : ByteFile) (s0 : DecodeState) : DecodeState :=
  let s := if sdbufSize ≤ s0.srcidx then
      { s0 with bufStart := s0.filePos, filePos := s0.filePos + sdbufSize, srcidx := 0 }
    else s0
  let b := fileByte f (s.bufStart + s.srcidx)
  let g := fileByte f (s.bufStart + s.srcidx + 1)
  let r := fileByte f (s.bufStart + s.srcidx + 2)
  let v := conv565 r g b
  let canvas2 :=
    match s.canvas.getD s.cur none with
    | some c => s.canvas.set s.cur (some { c with buf := c.buf.set s.destidx v })
    | none => s.canvas
  let cap :=
    match s.canvas.getD s.cur none with
    | some c => c.w16 * c.h16
    | none => 0
  let destidx2 := s.destidx + 1
  if cap ≤ destidx2 then
    let idx2 := (s.curIdx + 1) % 256
    { s with canvas := canvas2, srcidx := s.srcidx + 3, destidx := 0,
             curIdx := idx2, cur := if idx2 < NUM_CANVAS then idx2 else s.cur }
  else
    { s with canvas := canvas2, srcidx := s.srcidx + 3, destidx := destidx2 }

/-- The column loop of coreBMP (cpp lines 365-391), iterated loadWidth
times. -/
def colLoop (f : ByteFile) : Nat → DecodeState → DecodeState
  | 0, s => s
  | n + 1, s => colLoop f n (pixelStep f s)

/-- The scanline loop of coreBMP (cpp lines 344-392).  For each row while
currentCanvasIndex < NUM_CANVAS: compute the row start offset (bottom-up
when flip, top-down otherwise, uint32 arithmetic), seek only when the file
position differs (a seek forces an sdbuf reload by setting srcidx to
sizeof sdbuf), then run the pixel loop over loadWidth columns.  loadX and
loadY are the constants 0 in the RAM-load path (cpp lines 308-309). -/
def rowLoop (f : ByteFile) (flip : Bool) (offset bmpHeight rowSize loadWidth : Nat) :
    Nat → Nat → DecodeState → DecodeState
  | 0, _, s => s
  | rowsLeft + 1, row, s =>
      if s.curIdx < NUM_CANVAS then
        let loadX := 0
        let bmpPos :=
          ((if flip then offset + (bmpHeight - 1 - row) * rowSize
            else offset + row * rowSize) + loadX * 3) % 4294967296
        let s1 := if s.filePos ≠ bmpPos then
            { s with filePos := bmpPos, srcidx := sdbufSize }
          else s
        let s2 := colLoop f loadWidth s1
        rowLoop f flip offset bmpHeight rowSize loadWidth rowsLeft (row + 1) s2
      else s

/-- SPIFFS_ImageReader::coreBMP in its RAM-load form (cpp lines 231-401).
The file argument is None when SPIFFS.open fails.  `alloc` is the heap
oracle for the canvas allocations of this call.  Returns the status code
and the resulting image state.  Mirrors the source flow: dealloc the
image, open the file, check the BM signature, parse the header, gate on
planes == 1 and compression == 0, compute rowSize, gate on depth == 24,
store w and h, allocate the segmented canvas, and on full allocation
success mark the image IMAGE_16 and run the scanline loop (guarded by the
vacuous depth >= 16 test of cpp line 342). -/
def coreBMP (file : Option ByteFile) (alloc : Nat → Bool) (img0 : SPIFFS_Image) :
    ImageReturnCode × SPIFFS_Image :=
  let img := img0.dealloc
  match file with
  | none => (ImageReturnCode.IMAGE_ERR_FILE_NOT_FOUND, img)
  | some f =>
    if readLE16 f 0 = 0x4D42 then
      let hdr := parseHeader f
      if hdr.planes = 1 ∧ hdr.compression = 0 then
        let rowSize := rowSizeOf hdr.depth hdr.bmpWidth
        if hdr.depth = 24 then
          let img1 := { img with w := u16ofInt hdr.bmpWidth, h := hdr.bmpHeight % 65536 }
          let res := allocSegs alloc hdr.bmpWidth 0 NUM_CANVAS (hdr.bmpHeight % 65536)
          let img2 := { img1 with canvas := res.2 }
          if res.1 then
            let img3 := { img2 with format := ImageFormat.IMAGE_16 }
            let s0 : DecodeState :=
              ⟨img3.canvas, 0, 0, 0, sdbufSize, 0, hdr.posAfter⟩
            let s1 := if 16 ≤ hdr.depth then
                rowLoop f hdr.flip hdr.offset hdr.bmpHeight rowSize
                  hdr.bmpWidth.toNat hdr.bmpHeight 0 s0
              else s0
            (ImageReturnCode.IMAGE_SUCCESS, { img3 with canvas := s1.canvas })
          else (ImageReturnCode.IMAGE_ERR_MALLOC, img2)
        else (ImageReturnCode.IMAGE_ERR_FORMAT, img)
      else (ImageReturnCode.IMAGE_ERR_FORMAT, img)
    else (ImageReturnCode.IMAGE_ERR_FORMAT, img)

/-- SPIFFS_ImageReader::loadBMP (cpp lines 193-202): delegates to
coreBMP. -/
def loadBMP (file : Option ByteFile) (alloc : Nat → Bool) (img : SPIFFS_Image) :
    ImageReturnCode × SPIFFS_Image :=
  coreBMP file alloc img

/-- SPIFFS_ImageReader::bmpDimensions (cpp lines 414-445): FILE_NOT_FOUND
when the file cannot be opened, FORMAT on a bad signature, else SUCCESS
with the signed width and the absolute value of the signed height (read at
offsets 18 and 22).  The out-parameters are written only on the success
path, so the model returns them as an Option pair. -/
def bmpDimensions (file : Option ByteFile) : ImageReturnCode × Option (Int × Int) :=
  match file with
  | none => (ImageReturnCode.IMAGE_ERR_FILE_NOT_FOUND, none)
  | some f =>
    if readLE16 f 0 = 0x4D42 then
      let w := toInt32 (readLE32 f 18)
      let h := toInt32 (readLE32 f 22)
      let habs := if h < 0 then -h else h
      (ImageReturnCode.IMAGE_SUCCESS, some (w, habs))
    else (ImageReturnCode.IMAGE_ERR_FORMAT, none)

/-- Heap oracle under which every allocation succeeds. -/
def allocAll : Nat → Bool := fun _ => true

/-- Byte list of a 54-byte Windows BMP header (BITMAPINFOHEADER, headerSize
40): signature BM, data offset 54, the given 4 little-endian width bytes
and height bytes, planes 1, the given depth, compression 0, palette 0. -/
def bmpHeaderBytes (wBytes hBytes : List Nat) (depthLo : Nat) : List Nat :=
  [0x42, 0x4D, 0,0,0,0, 0,0,0,0, 54,0,0,0, 40,0,0,0] ++ wBytes ++ hBytes ++
    [1,0, depthLo,0] ++ List.replicate 24 0

/-- A 24-bit BMP, width 1, height 25 (not a multiple of CANVAS_HEIGHT);
pixel data past the stored bytes reads as zero. -/
def file25 : ByteFile := fun i => (bmpHeaderBytes [1,0,0,0] [25,0,0,0] 24).getD i 0

/-- A 24-bit BMP, width 1, height 40 (exactly two segments). -/
def file40 : ByteFile := fun i => (bmpHeaderBytes [1,0,0,0] [40,0,0,0] 24).getD i 0

/-- A BMP with depth 16, planes 1, compression 0 (claim C3 says such a file
is fully decodable). -/
def file16bpp : ByteFile := fun i => (bmpHeaderBytes [1,0,0,0] [1,0,0,0] 16).getD i 0

/-- A 24-bit BMP, width 1, height 70000 (height does not fit in uint16). -/
def file70000 : ByteFile := fun i => (bmpHeaderBytes [1,0,0,0] [112,17,1,0] 24).getD i 0

/-- A 2 x 2 bottom-up 24-bit BMP whose four pixels are (top row) red,
green, (bottom row) blue, white, stored as B,G,R byte triples with 2
padding bytes per row: file row 0 is the bottom image row. -/
def file4 : ByteFile := fun i =>
  (bmpHeaderBytes [2,0,0,0] [2,0,0,0] 24 ++
    [255,0,0, 255,255,255, 0,0, 0,0,255, 0,255,0, 0,0]).getD i 0

/-- An allocation oracle that succeeds only for the first segment. -/
def allocFirstOnly : Nat → Bool := fun i => i == 0


/-- A file that opens but is not a BMP (every byte 0). -/
def fileZero : ByteFile := fun _ => 0

/-- A top-down (height field -221) 24-bit BMP of width 65537.  The width
does not fit in uint16, so the canvases are allocated with width
65537 mod 65536 = 1 while the pixel loop still runs 65537 columns per row:
the write offset reaches the last segment capacity mid-row.  The first
221 pixels of a row read bytes 54..716 (value 20, pixel 4258); every byte
from offset 717 on is 200 (pixel 52825). -/
def fileC10 : ByteFile := fun i =>
  if i < 54 then (bmpHeaderBytes [1,0,1,0] [35,255,255,255] 24).getD i 0
  else if i < 717 then 20 else 200

/-- A top-down (height field -2) 24-bit BMP of width 199: its row stride is
600 bytes, exactly the scratch buffer size, with 3 padding bytes per row.
Pixel bytes are 10; the padding bytes (offsets 651..653 and 1251..1253)
are 99. -/
def file199 : ByteFile := fun i =>
  if i < 54 then (bmpHeaderBytes [199,0,0,0] [254,255,255,255] 24).getD i 0
  else if i < 1254 then
    (if (651 ≤ i ∧ i < 654) ∨ 1251 ≤ i then 99 else 10)
  else 0

/-- Decode state of fileC10 after 0 pixels of row 0. -/
def c10s0 : DecodeState :=
(DecodeState.mk [some (GFXcanvas16.mk 1 20 (List.replicate 20 0)),
  some (GFXcanvas16.mk 1 20 (List.replicate 20 0)),
  some (GFXcanvas16.mk 1 20 (List.replicate 20 0)),
  some (GFXcanvas16.mk 1 20 (List.replicate 20 0)),
  some (GFXcanvas16.mk 1 20 (List.replicate 20 0)),
  some (GFXcanvas16.mk 1 20 (List.replicate 20 0)),
  some (GFXcanvas16.mk 1 20 (List.replicate 20 0)),
  some (GFXcanvas16.mk 1 20 (List.replicate 20 0)),
  some (GFXcanvas16.mk 1 20 (List.replicate 20 0)),
  some (GFXcanvas16.mk 1 20 (List.replicate 20 0)),
  some (GFXcanvas16.mk 1 20 (List.replicate 20 0)),
  some (GFXcanvas16.mk 1 1 ([0]))]
  0 0 0 600 0 54)

/-- Decode state of fileC10 after 64 pixels of row 0. -/
def c10s1 : DecodeState :=
(DecodeState.mk [some (GFXcanvas16.mk 1 20 (List.replicate 20 4258)),
  some (GFXcanvas16.mk 1 20 (List.replicate 20 4258)),
  some (GFXcanvas16.mk 1 20 (List.replicate 20 4258)),
  some (GFXcanvas16.mk 1 20 (List.replicate 4 4258 ++ List.replicate 16 0)),
  some (GFXcanvas16.mk 1 20 (List.replicate 20 0)),
  some (GFXcanvas16.mk 1 20 (List.replicate 20 0)),
  some (GFXcanvas16.mk 1 20 (List.replicate 20 0)),
  some (GFXcanvas16.mk 1 20 (List.replicate 20 0)),
  some (GFXcanvas16.mk 1 20 (List.replicate 20 0)),
  some (GFXcanvas16.mk 1 20 (List.replicate 20 0)),
  some (GFXcanvas16.mk 1 20 (List.replicate 20 0)),
  some (GFXcanvas16.mk 1 1 ([0]))]
  3 3 4 192 54 654)

/-- Decode state of fileC10 after 128 pixels of row 0. -/
def c10s2 : DecodeState :=
(DecodeState.mk [some (GFXcanvas16.mk 1 20 (List.replicate 20 4258)),
  some (GFXcanvas16.mk 1 20 (List.replicate 20 4258)),
  some (GFXcanvas16.mk 1 20 (List.replicate 20 4258)),
  some (GFXcanvas16.mk 1 20 (List.replicate 20 4258)),
  some (GFXcanvas16.mk 1 20 (List.replicate 20 4258)),
  some (GFXcanvas16.mk 1 20 (List.replicate 20 4258)),
  some (GFXcanvas16.mk 1 20 (List.replicate 8 4258 ++ List.replicate 12 0)),
  some (GFXcanvas16.mk 1 20 (List.replicate 20 0)),
  some (GFXcanvas16.mk 1 20 (List.replicate 20 0)),
  some (GFXcanvas16.mk 1 20 (List.replicate 20 0)),
  some (GFXcanvas16.mk 1 20 (List.replicate 20 0)),
  some (GFXcanvas16.mk 1 1 ([0]))]
  6 6 8 384 54 654)

/-- Decode state of fileC10 after 192 pixels of row 0. -/
def c10s3 : DecodeState :=
(DecodeState.mk [some (GFXcanvas16.mk 1 20 (List.replicate 20 4258)),
  some (GFXcanvas16.mk 1 20 (List.replicate 20 4258)),
  some (GFXcanvas16.mk 1 20 (List.replicate 20 4258)),
  some (GFXcanvas16.mk 1 20 (List.replicate 20 4258)),
  some (GFXcanvas16.mk 1 20 (List.replicate 20 4258)),
  some (GFXcanvas16.mk 1 20 (List.replicate 20 4258)),
  some (GFXcanvas16.mk 1 20 (List.replicate 20 4258)),
  some (GFXcanvas16.mk 1 20 (List.replicate 20 4258)),
  some (GFXcanvas16.mk 1 20 (List.replicate 20 4258)),
  some (GFXcanvas16.mk 1 20 (List.replicate 12 4258 ++ List.replicate 8 0)),
  some (GFXcanvas16.mk 1 20 (List.replicate 20 0)),
  some (GFXcanvas16.mk 1 1 ([0]))]
  9 9 12 576 54 654)

/-- Decode state of fileC10 after 256 pixels of row 0. -/
def c10s4 : DecodeState :=
(DecodeState.mk [some (GFXcanvas16.mk 1 20 (List.replicate 20 4258)),
  some (GFXcanvas16.mk 1 20 (List.replicate 20 4258)),
  some (GFXcanvas16.mk 1 20 (List.replicate 20 4258)),
  some (GFXcanvas16.mk 1 20 (List.replicate 20 4258)),
  some (GFXcanvas16.mk 1 20 (List.replicate 20 4258)),
  some (GFXcanvas16.mk 1 20 (List.replicate 20 4258)),
  some (GFXcanvas16.mk 1 20 (List.replicate 20 4258)),
  some (GFXcanvas16.mk 1 20 (List.replicate 20 4258)),
  some (GFXcanvas16.mk 1 20 (List.replicate 20 4258)),
  some (GFXcanvas16.mk 1 20 (List.replicate 20 4258)),
  some (GFXcanvas16.mk 1 20 (List.replicate 20 4258)),
  some (GFXcanvas16.mk 1 1 ([52825]))]
  47 11 0 168 654 1254)

/-- Decode state of fileC10 after 320 pixels of row 0. -/
def c10s5 : DecodeState :=
(DecodeState.mk [some (GFXcanvas16.mk 1 20 (List.replicate 20 4258)),
  some (GFXcanvas16.mk 1 20 (List.replicate 20 4258)),
  some (GFXcanvas16.mk 1 20 (List.replicate 20 4258)),
  some (GFXcanvas16.mk 1 20 (List.replicate 20 4258)),
  some (GFXcanvas16.mk 1 20 (List.replicate 20 4258)),
  some (GFXcanvas16.mk 1 20 (List.replicate 20 4258)),
  some (GFXcanvas16.mk 1 20 (List.replicate 20 4258)),
  some (GFXcanvas16.mk 1 20 (List.replicate 20 4258)),
  some (GFXcanvas16.mk 1 20 (List.replicate 20 4258)),
  some (GFXcanvas16.mk 1 20 (List.replicate 20 4258)),
  some (GFXcanvas16.mk 1 20 (List.replicate 20 4258)),
  some (GFXcanvas16.mk 1 1 ([52825]))]
  111 11 0 360 654 1254)

/-- Decode state of fileC10 after 384 pixels of row 0. -/
def c10s6 : DecodeState :=
(DecodeState.mk [some (GFXcanvas16.mk 1 20 (List.replicate 20 4258)),
  some (GFXcanvas16.mk 1 20 (List.replicate 20 4258)),
  some (GFXcanvas16.mk 1 20 (List.replicate 20 4258)),
  some (GFXcanvas16.mk 1 20 (List.replicate 20 4258)),
  some (GFXcanvas16.mk 1 20 (List.replicate 20 4258)),
  some (GFXcanvas16.mk 1 20 (List.replicate 20 4258)),
  some (GFXcanvas16.mk 1 20 (List.replicate 20 4258)),
  some (GFXcanvas16.mk 1 20 (List.replicate 20 4258)),
  some (GFXcanvas16.mk 1 20 (List.replicate 20 4258)),
  some (GFXcanvas16.mk 1 20 (List.replicate 20 4258)),
  some (GFXcanvas16.mk 1 20 (List.replicate 20 4258)),
  some (GFXcanvas16.mk 1 1 ([52825]))]
  175 11 0 552 654 1254)

/-- Decode state of fileC10 after 448 pixels of row 0. -/
def c10s7 : DecodeState :=
(DecodeState.mk [some (GFXcanvas16.mk 1 20 (List.replicate 20 4258)),
  some (GFXcanvas16.mk 1 20 (List.replicate 20 4258)),
  some (GFXcanvas16.mk 1 20 (List.replicate 20 4258)),
  some (GFXcanvas16.mk 1 20 (List.replicate 20 4258)),
  some (GFXcanvas16.mk 1 20 (List.replicate 20 4258)),
  some (GFXcanvas16.mk 1 20 (List.replicate 20 4258)),
  some (GFXcanvas16.mk 1 20 (List.replicate 20 4258)),
  some (GFXcanvas16.mk 1 20 (List.replicate 20 4258)),
  some (GFXcanvas16.mk 1 20 (List.replicate 20 4258)),
  some (GFXcanvas16.mk 1 20 (List.replicate 20 4258)),
  some (GFXcanvas16.mk 1 20 (List.replicate 20 4258)),
  some (GFXcanvas16.mk 1 1 ([52825]))]
  239 11 0 144 1254 1854)

/-- Decode state of fileC10 after 512 pixels of row 0. -/
def c10s8 : DecodeState :=
(DecodeState.mk [some (GFXcanvas16.mk 1 20 (List.replicate 20 52825)),
  some (GFXcanvas16.mk 1 20 (List.replicate 20 52825)),
  some (GFXcanvas16.mk 1 20 (List.replicate 7 52825 ++ List.replicate 13 4258)),
  some (GFXcanvas16.mk 1 20 (List.replicate 20 4258)),
  some (GFXcanvas16.mk 1 20 (List.replicate 20 4258)),
  some (GFXcanvas16.mk 1 20 (List.replicate 20 4258)),
  some (GFXcanvas16.mk 1 20 (List.replicate 20 4258)),
  some (GFXcanvas16.mk 1 20 (List.replicate 20 4258)),
  some (GFXcanvas16.mk 1 20 (List.replicate 20 4258)),
  some (GFXcanvas16.mk 1 20 (List.replicate 20 4258)),
  some (GFXcanvas16.mk 1 20 (List.replicate 20 4258)),
  some (GFXcanvas16.mk 1 1 ([52825]))]
  2 2 7 336 1254 1854)

/-- Decode state of file199 after 0 pixels. -/
def c5s0 : DecodeState :=
(DecodeState.mk [some (GFXcanvas16.mk 199 2 (List.replicate 398 0)),
  some (GFXcanvas16.mk 199 20 (List.replicate 3980 0)),
  some (GFXcanvas16.mk 199 20 (List.replicate 3980 0)),
  some (GFXcanvas16.mk 199 20 (List.replicate 3980 0)),
  some (GFXcanvas16.mk 199 20 (List.replicate 3980 0)),
  some (GFXcanvas16.mk 199 20 (List.replicate 3980 0)),
  some (GFXcanvas16.mk 199 20 (List.replicate 3980 0)),
  some (GFXcanvas16.mk 199 20 (List.replicate 3980 0)),
  some (GFXcanvas16.mk 199 20 (List.replicate 3980 0)),
  some (GFXcanvas16.mk 199 20 (List.replicate 3980 0)),
  some (GFXcanvas16.mk 199 20 (List.replicate 3980 0)),
  some (GFXcanvas16.mk 199 20 (List.replicate 3980 0))]
  0 0 0 600 0 54)

/-- Decode state of file199 after 64 pixels. -/
def c5s1 : DecodeState :=
(DecodeState.mk [some (GFXcanvas16.mk 199 2 (List.replicate 64 2113 ++ List.replicate 334 0)),
  some (GFXcanvas16.mk 199 20 (List.replicate 3980 0)),
  some (GFXcanvas16.mk 199 20 (List.replicate 3980 0)),
  some (GFXcanvas16.mk 199 20 (List.replicate 3980 0)),
  some (GFXcanvas16.mk 199 20 (List.replicate 3980 0)),
  some (GFXcanvas16.mk 199 20 (List.replicate 3980 0)),
  some (GFXcanvas16.mk 199 20 (List.replicate 3980 0)),
  some (GFXcanvas16.mk 199 20 (List.replicate 3980 0)),
  some (GFXcanvas16.mk 199 20 (List.replicate 3980 0)),
  some (GFXcanvas16.mk 199 20 (List.replicate 3980 0)),
  some (GFXcanvas16.mk 199 20 (List.replicate 3980 0)),
  some (GFXcanvas16.mk 199 20 (List.replicate 3980 0))]
  0 0 64 192 54 654)

/-- Decode state of file199 after 128 pixels. -/
def c5s2 : DecodeState :=
(DecodeState.mk [some (GFXcanvas16.mk 199 2 (List.replicate 128 2113 ++ List.replicate 270 0)),
  some (GFXcanvas16.mk 199 20 (List.replicate 3980 0)),
  some (GFXcanvas16.mk 199 20 (List.replicate 3980 0)),
  some (GFXcanvas16.mk 199 20 (List.replicate 3980 0)),
  some (GFXcanvas16.mk 199 20 (List.replicate 3980 0)),
  some (GFXcanvas16.mk 199 20 (List.replicate 3980 0)),
  some (GFXcanvas16.mk 199 20 (List.replicate 3980 0)),
  some (GFXcanvas16.mk 199 20 (List.replicate 3980 0)),
  some (GFXcanvas16.mk 199 20 (List.replicate 3980 0)),
  some (GFXcanvas16.mk 199 20 (List.replicate 3980 0)),
  some (GFXcanvas16.mk 199 20 (List.replicate 3980 0)),
  some (GFXcanvas16.mk 199 20 (List.replicate 3980 0))]
  0 0 128 384 54 654)

/-- Decode state of file199 after 192 pixels. -/
def c5s3 : DecodeState :=
(DecodeState.mk [some (GFXcanvas16.mk 199 2 (List.replicate 192 2113 ++ List.replicate 206 0)),
  some (GFXcanvas16.mk 199 20 (List.replicate 3980 0)),
  some (GFXcanvas16.mk 199 20 (List.replicate 3980 0)),
  some (GFXcanvas16.mk 199 20 (List.replicate 3980 0)),
  some (GFXcanvas16.mk 199 20 (List.replicate 3980 0)),
  some (GFXcanvas16.mk 199 20 (List.replicate 3980 0)),
  some (GFXcanvas16.mk 199 20 (List.replicate 3980 0)),
  some (GFXcanvas16.mk 199 20 (List.replicate 3980 0)),
  some (GFXcanvas16.mk 199 20 (List.replicate 3980 0)),
  some (GFXcanvas16.mk 199 20 (List.replicate 3980 0)),
  some (GFXcanvas16.mk 199 20 (List.replicate 3980 0)),
  some (GFXcanvas16.mk 199 20 (List.replicate 3980 0))]
  0 0 192 576 54 654)

/-- Decode state of file199 after 199 pixels. -/
def c5s4 : DecodeState :=
(DecodeState.mk [some (GFXcanvas16.mk 199 2 (List.replicate 199 2113 ++ List.replicate 199 0)),
  some (GFXcanvas16.mk 199 20 (List.replicate 3980 0)),
  some (GFXcanvas16.mk 199 20 (List.replicate 3980 0)),
  some (GFXcanvas16.mk 199 20 (List.replicate 3980 0)),
  some (GFXcanvas16.mk 199 20 (List.replicate 3980 0)),
  some (GFXcanvas16.mk 199 20 (List.replicate 3980 0)),
  some (GFXcanvas16.mk 199 20 (List.replicate 3980 0)),
  some (GFXcanvas16.mk 199 20 (List.replicate 3980 0)),
  some (GFXcanvas16.mk 199 20 (List.replicate 3980 0)),
  some (GFXcanvas16.mk 199 20 (List.replicate 3980 0)),
  some (GFXcanvas16.mk 199 20 (List.replicate 3980 0)),
  some (GFXcanvas16.mk 199 20 (List.replicate 3980 0))]
  0 0 199 597 54 654)

/-- Decode state of file199 after 263 pixels. -/
def c5s5 : DecodeState :=
(DecodeState.mk [some (GFXcanvas16.mk 199 2 (List.replicate 199 2113 ++ [25356] ++ List.replicate 63 2113 ++ List.replicate 135 0)),
  some (GFXcanvas16.mk 199 20 (List.replicate 3980 0)),
  some (GFXcanvas16.mk 199 20 (List.replicate 3980 0)),
  some (GFXcanvas16.mk 199 20 (List.replicate 3980 0)),
  some (GFXcanvas16.mk 199 20 (List.replicate 3980 0)),
  some (GFXcanvas16.mk 199 20 (List.replicate 3980 0)),
  some (GFXcanvas16.mk 199 20 (List.replicate 3980 0)),
  some (GFXcanvas16.mk 199 20 (List.replicate 3980 0)),
  some (GFXcanvas16.mk 199 20 (List.replicate 3980 0)),
  some (GFXcanvas16.mk 199 20 (List.replicate 3980 0)),
  some (GFXcanvas16.mk 199 20 (List.replicate 3980 0)),
  some (GFXcanvas16.mk 199 20 (List.replicate 3980 0))]
  0 0 263 189 654 1254)

/-- Decode state of file199 after 327 pixels. -/
def c5s6 : DecodeState :=
(DecodeState.mk [some (GFXcanvas16.mk 199 2 (List.replicate 199 2113 ++ [25356] ++ List.replicate 127 2113 ++ List.replicate 71 0)),
  some (GFXcanvas16.mk 199 20 (List.replicate 3980 0)),
  some (GFXcanvas16.mk 199 20 (List.replicate 3980 0)),
  some (GFXcanvas16.mk 199 20 (List.replicate 3980 0)),
  some (GFXcanvas16.mk 199 20 (List.replicate 3980 0)),
  some (GFXcanvas16.mk 199 20 (List.replicate 3980 0)),
  some (GFXcanvas16.mk 199 20 (List.replicate 3980 0)),
  some (GFXcanvas16.mk 199 20 (List.replicate 3980 0)),
  some (GFXcanvas16.mk 199 20 (List.replicate 3980 0)),
  some (GFXcanvas16.mk 199 20 (List.replicate 3980 0)),
  some (GFXcanvas16.mk 199 20 (List.replicate 3980 0)),
  some (GFXcanvas16.mk 199 20 (List.replicate 3980 0))]
  0 0 327 381 654 1254)

/-- Decode state of file199 after 391 pixels. -/
def c5s7 : DecodeState :=
(DecodeState.mk [some (GFXcanvas16.mk 199 2 (List.replicate 199 2113 ++ [25356] ++ List.replicate 191 2113 ++ List.replicate 7 0)),
  some (GFXcanvas16.mk 199 20 (List.replicate 3980 0)),
  some (GFXcanvas16.mk 199 20 (List.replicate 3980 0)),
  some (GFXcanvas16.mk 199 20 (List.replicate 3980 0)),
  some (GFXcanvas16.mk 199 20 (List.replicate 3980 0)),
  some (GFXcanvas16.mk 199 20 (List.replicate 3980 0)),
  some (GFXcanvas16.mk 199 20 (List.replicate 3980 0)),
  some (GFXcanvas16.mk 199 20 (List.replicate 3980 0)),
  some (GFXcanvas16.mk 199 20 (List.replicate 3980 0)),
  some (GFXcanvas16.mk 199 20 (List.replicate 3980 0)),
  some (GFXcanvas16.mk 199 20 (List.replicate 3980 0)),
  some (GFXcanvas16.mk 199 20 (List.replicate 3980 0))]
  0 0 391 573 654 1254)

/-- Decode state of file199 after 398 pixels. -/
def c5s8 : DecodeState :=
(DecodeState.mk [some (GFXcanvas16.mk 199 2 (List.replicate 199 2113 ++ [25356] ++ List.replicate 198 2113)),
  some (GFXcanvas16.mk 199 20 (List.replicate 3980 0)),
  some (GFXcanvas16.mk 199 20 (List.replicate 3980 0)),
  some (GFXcanvas16.mk 199 20 (List.replicate 3980 0)),
  some (GFXcanvas16.mk 199 20 (List.replicate 3980 0)),
  some (GFXcanvas16.mk 199 20 (List.replicate 3980 0)),
  some (GFXcanvas16.mk 199 20 (List.replicate 3980 0)),
  some (GFXcanvas16.mk 199 20 (List.replicate 3980 0)),
  some (GFXcanvas16.mk 199 20 (List.replicate 3980 0)),
  some (GFXcanvas16.mk 199 20 (List.replicate 3980 0)),
  some (GFXcanvas16.mk 199 20 (List.replicate 3980 0)),
  some (GFXcanvas16.mk 199 20 (List.replicate 3980 0))]
  1 1 0 594 654 1254)

/-- The draw contract as the spec words it (section 4.5): blit each
segment in order at (x, y), advancing y by the fixed segment row capacity
after each segment.  Used to compare SPIFFS_Image.draw against the
spec. -/
def drawSpecBlits (x y : Int) : List GFXcanvas16 → List Blit
  | [] => []
  | c :: rest => ⟨x, y, c.w16, c.h16, c.buf⟩ ::
      drawSpecBlits x (y + (CANVAS_HEIGHT : Int)) rest

/-- A small decode state whose uint8 canvas index has just advanced past
the last canvas slot (curIdx = NUM_CANVAS, currentCanvas still the
twelfth slot, destidx reset to 0), used to instantiate the C10 loop
behaviour. -/
def c10WitState : DecodeState :=
  ⟨List.replicate 12 (some ⟨1, 1, [5]⟩), 12, 11, 0, 0, 717, 1317⟩

/-- C1 (code bug): loading a 24-bit BMP of width 1 and height 25 allocates
all NUM_CANVAS = 12 segments (heights 20, 5, 20, ..., 20) instead of the
ceil(25/20) = 2 the claim requires: the uint16 remainingHeight
(5 - 20 wraps to 65521) never reaches 0, so the loop only stops at the
NUM_CANVAS bound. -/
theorem c1_alloc_overrun :
    (coreBMP (some file25) allocAll SPIFFS_Image.init).1 = ImageReturnCode.IMAGE_SUCCESS ∧
    (coreBMP (some file25) allocAll SPIFFS_Image.init).2.canvas.map (Option.map GFXcanvas16.h16) =
      [some 20, some 5, some 20, some 20, some 20, some 20,
       some 20, some 20, some 20, some 20, some 20, some 20] ∧
    (25 + CANVAS_HEIGHT - 1) / CANVAS_HEIGHT = 2 := by
  refine ⟨by decide, by decide, by decide⟩

/-- C2 (code bug): when the second segment allocation fails, coreBMP
returns IMAGE_ERR_MALLOC with format IMAGE_NONE, but the first segment is
still attached to the handle: nothing releases the partially allocated
segments before returning. -/
theorem c2_leaked_segment :
    (coreBMP (some file40) allocFirstOnly SPIFFS_Image.init).1 = ImageReturnCode.IMAGE_ERR_MALLOC ∧
    (coreBMP (some file40) allocFirstOnly SPIFFS_Image.init).2.format = ImageFormat.IMAGE_NONE ∧
    (coreBMP (some file40) allocFirstOnly SPIFFS_Image.init).2.canvas.getD 0 none ≠ none := by
  refine ⟨by decide, by decide, by decide⟩

/-- C3 counterexample: a BMP with planes 1, compression 0 and depth 16
satisfies the claim's decode condition (depth >= 16), yet loadBMP returns
UNSUPPORTED_FORMAT and decodes nothing: the code gates the decode on
depth == 24. -/
theorem c3_counterexample :
    readLE16 file16bpp 0 = 0x4D42 ∧
    (parseHeader file16bpp).planes = 1 ∧
    (parseHeader file16bpp).compression = 0 ∧
    16 ≤ (parseHeader file16bpp).depth ∧
    (coreBMP (some file16bpp) allocAll SPIFFS_Image.init).1 = ImageReturnCode.IMAGE_ERR_FORMAT ∧
    (coreBMP (some file16bpp) allocAll SPIFFS_Image.init).2.format = ImageFormat.IMAGE_NONE := by
  refine ⟨by decide, by decide, by decide, by decide, by decide, by decide⟩

/-- C6 counterexample: for a valid 24-bit BMP of width 1 and height 70000,
bmpDimensions reports height 70000 while a successful loadBMP stores
h = 70000 mod 65536 = 4464 in the uint16 field, so height() reports
4464. -/
theorem c6_counterexample :
    bmpDimensions (some file70000) = (ImageReturnCode.IMAGE_SUCCESS, some (1, 70000)) ∧
    (coreBMP (some file70000) allocAll SPIFFS_Image.init).1 = ImageReturnCode.IMAGE_SUCCESS ∧
    (coreBMP (some file70000) allocAll SPIFFS_Image.init).2.height = 4464 ∧
    (4464 : Int) ≠ 70000 := by
  refine ⟨by decide, by decide, by decide, by decide⟩

/-- C8 (code bug): two violations of the handle invariant.  After loading
the height-25 BMP the format is IMAGE_16 and the segment heights are
20, 5, 20, ..., 20: they sum to 225 rather than height() = 25, and the
short segment is in the middle.  After a failed allocation the format is
IMAGE_NONE but the segment sequence is not empty. -/
theorem c8_invariant_broken :
    (coreBMP (some file25) allocAll SPIFFS_Image.init).2.format = ImageFormat.IMAGE_16 ∧
    (coreBMP (some file25) allocAll SPIFFS_Image.init).2.height = 25 ∧
    ((coreBMP (some file25) allocAll SPIFFS_Image.init).2.canvas.map
        (fun o => (Option.map GFXcanvas16.h16 o).getD 0)).sum = 225 ∧
    (225 : Nat) ≠ 25 ∧
    (coreBMP (some file40) allocFirstOnly SPIFFS_Image.init).2.format = ImageFormat.IMAGE_NONE ∧
    (coreBMP (some file40) allocFirstOnly SPIFFS_Image.init).2.canvas ≠
      List.replicate NUM_CANVAS none := by
  refine ⟨by decide, by decide, by decide, by decide, by decide, by decide⟩

/-- Helper: getD at 0 ignores a set at a positive index. -/
theorem getD0_set_succ {α : Type} (l : List α) (k : Nat) (v d : α) :
    (l.set (k + 1) v).getD 0 d = l.getD 0 d := by
  cases l <;> rfl

/-- Helper: getD after setting the same position returns the new value. -/
theorem getD_set_self {α : Type} (l : List α) (i : Nat) (v d : α)
    (h : i < l.length) : (l.set i v).getD i d = v := by
  induction l generalizing i with
  | nil => simp at h
  | cons a t ih =>
      cases i with
      | zero => rfl
      | succ k => exact ih k (by simpa using h)

/-- Helper: a getD hit below none means the index is in range. -/
theorem lt_length_of_getD_some {α : Type} (l : List (Option α)) (i : Nat)
    (c : α) (h : l.getD i none = some c) : i < l.length := by
  induction l generalizing i with
  | nil => simp [List.getD] at h
  | cons a t ih =>
      cases i with
      | zero => simp
      | succ k => exact Nat.succ_lt_succ (ih k h)

/-- C4: the pixel written by one iteration of the pixel loop is exactly the
5-6-5 packing of the three consecutive source bytes B, G, R taken from the
scratch buffer, stored at the current destination offset of the current
canvas; and decoding a synthetic 2 x 2 BMP with pixels red, green, blue,
white yields exactly the packed values 0xF800, 0x07E0, 0x001F, 0xFFFF at
the corresponding logical coordinates of the first canvas. -/
theorem c4_pixel_conversion :
    (∀ (f : ByteFile) (s : DecodeState) (c : GFXcanvas16),
        s.srcidx < sdbufSize →
        s.canvas.getD s.cur none = some c →
        (pixelStep f s).canvas.getD s.cur none =
          some ⟨c.w16, c.h16,
            c.buf.set s.destidx
              (conv565 (fileByte f (s.bufStart + s.srcidx + 2))
                (fileByte f (s.bufStart + s.srcidx + 1))
                (fileByte f (s.bufStart + s.srcidx)))⟩) ∧
    (coreBMP (some file4) allocAll SPIFFS_Image.init).2.canvas.getD 0 none =
      some ⟨2, 2, [63488, 2016, 31, 65535]⟩ ∧
    conv565 255 0 0 = 63488 ∧ conv565 0 255 0 = 2016 ∧
    conv565 0 0 255 = 31 ∧ conv565 255 255 255 = 65535 := by
  refine ⟨?_, by decide, by decide, by decide, by decide, by decide⟩
  intro f s c hsrc hc
  have hlen : s.cur < s.canvas.length := lt_length_of_getD_some _ _ _ hc
  have hns : ¬ (sdbufSize ≤ s.srcidx) := Nat.not_le.mpr hsrc
  simp only [pixelStep, if_neg hns, hc]
  split <;> exact getD_set_self _ _ _ _ hlen

/-- C4 witness: one pixel step on a concrete state over file4 writes the
packed value of bytes 54..56 (blue = 255,0,0 as B,G,R) at destination
offset 1 of the only canvas. -/
theorem c4_pixel_conversion_witness :
    (pixelStep file4 ⟨[some ⟨2, 2, [0, 0, 0, 0]⟩], 0, 0, 1, 0, 54, 654⟩).canvas.getD 0 none =
      some ⟨2, 2, [0, 31, 0, 0]⟩ := by
  rw [c4_pixel_conversion.1 file4 ⟨[some ⟨2, 2, [0, 0, 0, 0]⟩], 0, 0, 1, 0, 54, 654⟩
    ⟨2, 2, [0, 0, 0, 0]⟩ (by decide) (by decide)]
  decide


/-- Evaluation of 64 pixel-loop steps of the fileC10 decode. -/
theorem c10_chunk1 : colLoop fileC10 64 c10s0 = c10s1 := rfl

/-- Evaluation of 64 pixel-loop steps of the fileC10 decode. -/
theorem c10_chunk2 : colLoop fileC10 64 c10s1 = c10s2 := rfl

/-- Evaluation of 64 pixel-loop steps of the fileC10 decode. -/
theorem c10_chunk3 : colLoop fileC10 64 c10s2 = c10s3 := rfl

/-- Evaluation of 64 pixel-loop steps of the fileC10 decode. -/
theorem c10_chunk4 : colLoop fileC10 64 c10s3 = c10s4 := rfl

/-- Evaluation of 64 pixel-loop steps of the fileC10 decode. -/
theorem c10_chunk5 : colLoop fileC10 64 c10s4 = c10s5 := rfl

/-- Evaluation of 64 pixel-loop steps of the fileC10 decode. -/
theorem c10_chunk6 : colLoop fileC10 64 c10s5 = c10s6 := rfl

/-- Evaluation of 64 pixel-loop steps of the fileC10 decode. -/
theorem c10_chunk7 : colLoop fileC10 64 c10s6 = c10s7 := rfl

/-- Evaluation of 64 pixel-loop steps of the fileC10 decode. -/
theorem c10_chunk8 : colLoop fileC10 64 c10s7 = c10s8 := rfl

/-- Evaluation of 64 pixel-loop steps of the file199 decode. -/
theorem c5_chunk1 : colLoop file199 64 c5s0 = c5s1 := rfl

/-- Evaluation of 64 pixel-loop steps of the file199 decode. -/
theorem c5_chunk2 : colLoop file199 64 c5s1 = c5s2 := rfl

/-- Evaluation of 64 pixel-loop steps of the file199 decode. -/
theorem c5_chunk3 : colLoop file199 64 c5s2 = c5s3 := rfl

/-- Evaluation of 7 pixel-loop steps of the file199 decode. -/
theorem c5_chunk4 : colLoop file199 7 c5s3 = c5s4 := rfl

/-- Evaluation of 64 pixel-loop steps of the file199 decode. -/
theorem c5_chunk5 : colLoop file199 64 c5s4 = c5s5 := rfl

/-- Evaluation of 64 pixel-loop steps of the file199 decode. -/
theorem c5_chunk6 : colLoop file199 64 c5s5 = c5s6 := rfl

/-- Evaluation of 64 pixel-loop steps of the file199 decode. -/
theorem c5_chunk7 : colLoop file199 64 c5s6 = c5s7 := rfl

/-- Evaluation of 7 pixel-loop steps of the file199 decode. -/
theorem c5_chunk8 : colLoop file199 7 c5s7 = c5s8 := rfl

/-- Helper: the pixel loop splits into two runs. -/
theorem colLoop_add (f : ByteFile) (m n : Nat) (s : DecodeState) :
    colLoop f (m + n) s = colLoop f n (colLoop f m s) := by
  induction m generalizing s with
  | zero => rw [Nat.zero_add]; rfl
  | succ k ih =>
      have h : k + 1 + n = (k + n) + 1 := by omega
      rw [h]
      show colLoop f (k + n) (pixelStep f s) = colLoop f n (colLoop f k (pixelStep f s))
      exact ih (pixelStep f s)

/-- Helper: once currentCanvasIndex has reached NUM_CANVAS the scanline
loop processes no further rows. -/
theorem rowLoop_halt (f : ByteFile) (fl : Bool) (off h rs lw : Nat)
    (n row : Nat) (s : DecodeState) (hidx : ¬ s.curIdx < NUM_CANVAS) :
    rowLoop f fl off h rs lw n row s = s := by
  cases n with
  | zero => rfl
  | succ k => exact if_neg hidx

/-- Helper: the scanline loop splits into two runs. -/
theorem rowLoop_add (f : ByteFile) (fl : Bool) (off h rs lw : Nat)
    (m n row : Nat) (s : DecodeState) :
    rowLoop f fl off h rs lw (m + n) row s =
      rowLoop f fl off h rs lw n (row + m) (rowLoop f fl off h rs lw m row s) := by
  induction m generalizing row s with
  | zero => rw [Nat.zero_add]; rfl
  | succ k ih =>
      by_cases hc : s.curIdx < NUM_CANVAS
      · have h1 : k + 1 + n = (k + n) + 1 := by omega
        rw [h1]
        show rowLoop f fl off h rs lw ((k + n) + 1) row s =
          rowLoop f fl off h rs lw n (row + (k + 1)) (rowLoop f fl off h rs lw (k + 1) row s)
        rw [rowLoop, rowLoop, if_pos hc, if_pos hc]
        have h2 : row + (k + 1) = (row + 1) + k := by omega
        rw [h2]
        exact ih (row + 1) _
      · rw [rowLoop_halt f fl off h rs lw (k + 1 + n) row s hc,
            rowLoop_halt f fl off h rs lw (k + 1) row s hc,
            rowLoop_halt f fl off h rs lw n (row + (k + 1)) s hc]

/-- Helper: getD at an index other than the one set is unchanged. -/
theorem getD_set_ne {α : Type} (l : List α) (i j : Nat) (v d : α)
    (h : i ≠ j) : (l.set i v).getD j d = l.getD j d := by
  induction l generalizing i j with
  | nil => rfl
  | cons a t ih =>
      cases i with
      | zero => cases j with
        | zero => exact absurd rfl h
        | succ m => rfl
      | succ k => cases j with
        | zero => rfl
        | succ m => exact ih k m (by omega)

/-- Helper: overwriting one entry of a constant list with the same constant
changes nothing. -/
theorem set_replicate_self {α : Type} (a : α) :
    ∀ (n i : Nat), (List.replicate n a).set i a = List.replicate n a
  | 0, _ => rfl
  | n + 1, 0 => rfl
  | n + 1, i + 1 => by
      show a :: (List.replicate n a).set i a = a :: List.replicate n a
      rw [set_replicate_self a n i]
/-- Helper: every byte of fileC10 from offset 717 on reads as 200. -/
theorem fileC10_tail (p : Nat) (hp : 717 ≤ p) : fileByte fileC10 p = 200 := by
  unfold fileByte fileC10
  rw [if_neg (by omega), if_neg (by omega)]

/-- Helper: a pixel whose three source bytes come from the tail of fileC10
converts to 52825. -/
theorem fileC10_pixel (p : Nat) (hp : 717 ≤ p) :
    conv565 (fileByte fileC10 (p + 2)) (fileByte fileC10 (p + 1))
      (fileByte fileC10 p) = 52825 := by
  rw [fileC10_tail (p + 2) (by omega), fileC10_tail (p + 1) (by omega),
      fileC10_tail p hp]
  decide


/-- Helper: a pixel step that refills the scratch buffer behaves exactly
like a pixel step from the refilled state. -/
theorem pixelStep_refill (f : ByteFile) (s : DecodeState)
    (hr : sdbufSize ≤ s.srcidx) :
    pixelStep f s =
      pixelStep f ⟨s.canvas, s.curIdx, s.cur, s.destidx, 0, s.filePos,
        s.filePos + sdbufSize⟩ := by
  simp only [pixelStep, if_pos hr, if_neg (show ¬ sdbufSize ≤ 0 by decide)]

/-- Helper: an in-buffer pixel step of the fileC10 decode whose read
position lies in the tail region preserves the all-52825 first canvas and
moves srcidx forward by 3 without touching bufStart or filePos. -/
theorem pixelStep_steady_core (s : DecodeState)
    (h0 : s.canvas.getD 0 none = some ⟨1, 20, List.replicate 20 52825⟩)
    (hs : ¬ sdbufSize ≤ s.srcidx)
    (hpos : 717 ≤ s.bufStart + s.srcidx) :
    (pixelStep fileC10 s).canvas.getD 0 none = some ⟨1, 20, List.replicate 20 52825⟩ ∧
    (pixelStep fileC10 s).filePos = s.filePos ∧
    (pixelStep fileC10 s).bufStart = s.bufStart ∧
    (pixelStep fileC10 s).srcidx = s.srcidx + 3 := by
  have hlen : 0 < s.canvas.length := lt_length_of_getD_some _ _ _ h0
  simp only [pixelStep, if_neg hs]
  rw [fileC10_pixel (s.bufStart + s.srcidx) hpos]
  rcases hm : s.canvas.getD s.cur none with _ | c
  · split <;> exact ⟨h0, rfl, rfl, rfl⟩
  · cases hcu : s.cur with
    | zero =>
        rw [hcu] at hm
        rw [h0] at hm
        obtain rfl := Option.some.inj hm
        split <;>
          refine ⟨?_, rfl, rfl, rfl⟩ <;>
          · show (s.canvas.set 0 _).getD 0 none = _
            rw [set_replicate_self, getD_set_self _ _ _ _ hlen]
    | succ k =>
        split <;>
          refine ⟨?_, rfl, rfl, rfl⟩ <;>
          · show (s.canvas.set (k + 1) _).getD 0 none = _
            rw [getD0_set_succ]
            exact h0

/-- Helper: one pixel step of the fileC10 decode in its steady tail
phase preserves the invariant: the first canvas slot holds the all-52825
buffer, the refill position is in the tail region, and any pending
in-buffer read position is in the tail region. -/
theorem pixelStep_steady (s : DecodeState)
    (h0 : s.canvas.getD 0 none = some ⟨1, 20, List.replicate 20 52825⟩)
    (h1 : 717 ≤ s.filePos)
    (h2 : sdbufSize ≤ s.srcidx ∨ 717 ≤ s.bufStart + s.srcidx) :
    (pixelStep fileC10 s).canvas.getD 0 none = some ⟨1, 20, List.replicate 20 52825⟩ ∧
    717 ≤ (pixelStep fileC10 s).filePos ∧
    (sdbufSize ≤ (pixelStep fileC10 s).srcidx ∨
      717 ≤ (pixelStep fileC10 s).bufStart + (pixelStep fileC10 s).srcidx) := by
  by_cases hr : sdbufSize ≤ s.srcidx
  · rw [pixelStep_refill fileC10 s hr]
    have hcore := pixelStep_steady_core
      ⟨s.canvas, s.curIdx, s.cur, s.destidx, 0, s.filePos, s.filePos + sdbufSize⟩
      h0 (by show ¬ sdbufSize ≤ 0; decide) (by show 717 ≤ s.filePos + 0; omega)
    refine ⟨hcore.1, ?_, ?_⟩
    · rw [hcore.2.1]; show 717 ≤ s.filePos + sdbufSize; omega
    · right
      rw [hcore.2.2.1, hcore.2.2.2]
      show 717 ≤ s.filePos + (0 + 3)
      omega
  · have hpos : 717 ≤ s.bufStart + s.srcidx := h2.resolve_left hr
    have hcore := pixelStep_steady_core s h0 hr hpos
    refine ⟨hcore.1, by rw [hcore.2.1]; exact h1, ?_⟩
    by_cases hs3 : sdbufSize ≤ s.srcidx + 3
    · left; rw [hcore.2.2.2]; exact hs3
    · right; rw [hcore.2.2.1, hcore.2.2.2]; omega

/-- Helper: the steady-phase invariant of the fileC10 decode is preserved
by any number of pixel-loop steps. -/
theorem colLoop_steady (n : Nat) : ∀ (s : DecodeState),
    s.canvas.getD 0 none = some ⟨1, 20, List.replicate 20 52825⟩ →
    717 ≤ s.filePos →
    (sdbufSize ≤ s.srcidx ∨ 717 ≤ s.bufStart + s.srcidx) →
    (colLoop fileC10 n s).canvas.getD 0 none = some ⟨1, 20, List.replicate 20 52825⟩ ∧
    717 ≤ (colLoop fileC10 n s).filePos ∧
    (sdbufSize ≤ (colLoop fileC10 n s).srcidx ∨
      717 ≤ (colLoop fileC10 n s).bufStart + (colLoop fileC10 n s).srcidx) := by
  induction n with
  | zero => exact fun s h0 h1 h2 => ⟨h0, h1, h2⟩
  | succ k ih =>
      intro s h0 h1 h2
      have hstep := pixelStep_steady s h0 h1 h2
      exact ih (pixelStep fileC10 s) hstep.1 hstep.2.1 hstep.2.2

/-- Helper: one unfolding of the scanline loop when the canvas index is
still in range. -/
theorem rowLoop_succ (f : ByteFile) (fl : Bool) (off h rs lw k row : Nat)
    (s : DecodeState) (hidx : s.curIdx < NUM_CANVAS) :
    rowLoop f fl off h rs lw (k + 1) row s =
      rowLoop f fl off h rs lw k (row + 1)
        (colLoop f lw
          (if s.filePos ≠
              ((if fl then off + (h - 1 - row) * rs else off + row * rs) + 0 * 3) %
                4294967296 then
            ⟨s.canvas, s.curIdx, s.cur, s.destidx, sdbufSize, s.bufStart,
              ((if fl then off + (h - 1 - row) * rs else off + row * rs) + 0 * 3) %
                4294967296⟩
          else s)) := by
  rw [rowLoop, if_pos hidx]

/-- Helper: from row 1 on, every row of the top-down fileC10 decode reads
only tail-region bytes, so the steady-phase invariant survives any number
of further scanlines (whether or not the loop halts on the canvas-index
bound). -/
theorem rowLoop_steady (n : Nat) : ∀ (row : Nat) (s : DecodeState),
    1 ≤ row → row + n ≤ 221 →
    s.canvas.getD 0 none = some ⟨1, 20, List.replicate 20 52825⟩ →
    717 ≤ s.filePos →
    (sdbufSize ≤ s.srcidx ∨ 717 ≤ s.bufStart + s.srcidx) →
    (rowLoop fileC10 false 54 221 196612 65537 n row s).canvas.getD 0 none =
      some ⟨1, 20, List.replicate 20 52825⟩ := by
  induction n with
  | zero => exact fun row s _ _ h0 _ _ => h0
  | succ k ih =>
      intro row s hrow hbound h0 h1 h2
      by_cases hidx : s.curIdx < NUM_CANVAS
      · rw [rowLoop_succ fileC10 false 54 221 196612 65537 k row s hidx]
        set bmpPos := ((if false then 54 + (221 - 1 - row) * 196612
            else 54 + row * 196612) + 0 * 3) % 4294967296 with hbp
        have hbpv : bmpPos = 54 + row * 196612 := by
          rw [hbp, if_neg (by simp)]
          exact Nat.mod_eq_of_lt (by omega)
        have hbig : 717 ≤ bmpPos := by omega
        by_cases hseek : s.filePos ≠ bmpPos
        · rw [if_pos hseek]
          have hs := colLoop_steady 65537
            ⟨s.canvas, s.curIdx, s.cur, s.destidx, sdbufSize, s.bufStart, bmpPos⟩
            h0 hbig (Or.inl (by show sdbufSize ≤ sdbufSize; omega))
          exact ih (row + 1) _ (by omega) (by omega) hs.1 hs.2.1 hs.2.2
        · rw [if_neg hseek]
          have hs := colLoop_steady 65537 s h0 h1 h2
          exact ih (row + 1) _ (by omega) (by omega) hs.1 hs.2.1 hs.2.2
      · rw [rowLoop_halt fileC10 false 54 221 196612 65537 (k + 1) row s hidx]
        exact h0

/-- Helper: on the full success path (good signature, planes 1, no
compression, depth 24, allocation loop succeeds) the canvas bundle that
coreBMP returns is the canvas list of the scanline loop run from the
fresh decode state. -/
theorem coreBMP_success_canvas (f : ByteFile) (alloc : Nat → Bool)
    (img0 : SPIFFS_Image)
    (hsig : readLE16 f 0 = 0x4D42)
    (hp : (parseHeader f).planes = 1) (hc : (parseHeader f).compression = 0)
    (hd : (parseHeader f).depth = 24)
    (hal : (allocSegs alloc (parseHeader f).bmpWidth 0 NUM_CANVAS
      ((parseHeader f).bmpHeight % 65536)).1 = true) :
    (coreBMP (some f) alloc img0).2.canvas =
      (rowLoop f (parseHeader f).flip (parseHeader f).offset
        (parseHeader f).bmpHeight
        (rowSizeOf (parseHeader f).depth (parseHeader f).bmpWidth)
        (parseHeader f).bmpWidth.toNat (parseHeader f).bmpHeight 0
        (DecodeState.mk
          (allocSegs alloc (parseHeader f).bmpWidth 0 NUM_CANVAS
            ((parseHeader f).bmpHeight % 65536)).2
          0 0 0 sdbufSize 0 (parseHeader f).posAfter)).canvas := by
  simp only [coreBMP, hsig, hp, hc, hd, hal, and_self, if_true,
    eq_self_iff_true, eq_true (by decide : (16 : Nat) ≤ 24)]

/-- Helper: reduce coreBMP on fileC10 to the scanline loop. -/
theorem c10_red :
    (coreBMP (some fileC10) allocAll SPIFFS_Image.init).2.canvas.getD 0 none =
      (rowLoop fileC10 false 54 221 196612 65537 221 0
        (DecodeState.mk c10s0.canvas 0 0 0 600 0 54)).canvas.getD 0 none := by
  have hparse : parseHeader fileC10 =
      BmpHeader.mk 54 40 65537 221 false 1 24 0 16777216 54 := by decide
  have h := coreBMP_success_canvas fileC10 allocAll SPIFFS_Image.init
    (by decide) (by decide) (by decide) (by decide) (by decide)
  rw [hparse] at h
  dsimp only at h
  rw [show rowSizeOf 24 65537 = 196612 from by decide] at h
  rw [show Int.toNat 65537 = 65537 from by decide] at h
  rw [show 221 % 65536 = 221 from by decide] at h
  rw [show (allocSegs allocAll 65537 0 NUM_CANVAS 221).2 = c10s0.canvas
    from by decide] at h
  rw [show sdbufSize = 600 from rfl] at h
  rw [h]

/-- Helper: the initial decode state literal of fileC10 is c10s0. -/
theorem c10_lit : DecodeState.mk c10s0.canvas 0 0 0 600 0 54 = c10s0 := rfl

/-- Helper: split off the first scanline of fileC10. -/
theorem c10_split : rowLoop fileC10 false 54 221 196612 65537 221 0 c10s0 =
    rowLoop fileC10 false 54 221 196612 65537 220 1
      (rowLoop fileC10 false 54 221 196612 65537 1 0 c10s0) :=
  rowLoop_add fileC10 false 54 221 196612 65537 1 220 0 c10s0

/-- Helper: the first scanline of fileC10 needs no seek and is one
column loop. -/
theorem c10_row0 : rowLoop fileC10 false 54 221 196612 65537 1 0 c10s0 =
    rowLoop fileC10 false 54 221 196612 65537 0 1 (colLoop fileC10 65537 c10s0) :=
  rowLoop_succ fileC10 false 54 221 196612 65537 0 0 c10s0 (by decide)

/-- Helper: fuel zero ends the scanline loop of fileC10. -/
theorem c10_row0e : rowLoop fileC10 false 54 221 196612 65537 0 1
    (colLoop fileC10 65537 c10s0) = colLoop fileC10 65537 c10s0 := rfl

/-- Helper: advance the first 512 pixels of row 0 of fileC10 through the
precomputed chunk states. -/
theorem c10_chain : colLoop fileC10 65537 c10s0 = colLoop fileC10 65025 c10s8 := by
  have ht1 : colLoop fileC10 65537 c10s0 = colLoop fileC10 65473 c10s1 := by
    rw [← c10_chunk1]
    exact colLoop_add fileC10 64 65473 c10s0
  have ht2 : colLoop fileC10 65473 c10s1 = colLoop fileC10 65409 c10s2 := by
    rw [← c10_chunk2]
    exact colLoop_add fileC10 64 65409 c10s1
  have ht3 : colLoop fileC10 65409 c10s2 = colLoop fileC10 65345 c10s3 := by
    rw [← c10_chunk3]
    exact colLoop_add fileC10 64 65345 c10s2
  have ht4 : colLoop fileC10 65345 c10s3 = colLoop fileC10 65281 c10s4 := by
    rw [← c10_chunk4]
    exact colLoop_add fileC10 64 65281 c10s3
  have ht5 : colLoop fileC10 65281 c10s4 = colLoop fileC10 65217 c10s5 := by
    rw [← c10_chunk5]
    exact colLoop_add fileC10 64 65217 c10s4
  have ht6 : colLoop fileC10 65217 c10s5 = colLoop fileC10 65153 c10s6 := by
    rw [← c10_chunk6]
    exact colLoop_add fileC10 64 65153 c10s5
  have ht7 : colLoop fileC10 65153 c10s6 = colLoop fileC10 65089 c10s7 := by
    rw [← c10_chunk7]
    exact colLoop_add fileC10 64 65089 c10s6
  have ht8 : colLoop fileC10 65089 c10s7 = colLoop fileC10 65025 c10s8 := by
    rw [← c10_chunk8]
    exact colLoop_add fileC10 64 65025 c10s7
  rw [ht1, ht2, ht3, ht4, ht5, ht6, ht7, ht8]

/-- Helper: from the wrapped state c10s8 on, the first canvas of fileC10
never changes again. -/
theorem c10_tail :
    (rowLoop fileC10 false 54 221 196612 65537 220 1
        (colLoop fileC10 65025 c10s8)).canvas.getD 0 none =
      some (GFXcanvas16.mk 1 20 (List.replicate 20 52825)) := by
  have hs := colLoop_steady 65025 c10s8 (by decide) (by decide) (Or.inr (by decide))
  exact rowLoop_steady 220 1 _ (by omega) (by omega) hs.1 hs.2.1 hs.2.2

/-- C10 counterexample: decoding fileC10 (width 65537, so the canvases are
1 pixel wide while a row has 65537 columns; top-down height 221, so the
twelfth canvas has capacity 1).  The write offset reaches the last
segment capacity at pixel 220 of row 0, mid-row.  The claim says the
remaining pixels of the row are all written into the last segment; in
fact the uint8 segment index wraps past 255 back to 0 and writing
re-enters the first segment: at the end of the call the first canvas
holds the all-52825 buffer written by remaining-phase pixels (tail bytes
200), not the 4258 pixels (bytes 20) of its own fill phase. -/
theorem c10_counterexample :
    (coreBMP (some fileC10) allocAll SPIFFS_Image.init).2.canvas.getD 0 none =
      some ⟨1, 20, List.replicate 20 52825⟩ ∧
    conv565 20 20 20 = 4258 ∧ conv565 200 200 200 = 52825 ∧ (4258 : Nat) ≠ 52825 := by
  refine ⟨?_, by decide, by decide, by decide⟩
  rw [c10_red, c10_lit, c10_split, c10_row0, c10_row0e, c10_chain]
  exact c10_tail

/-- Helper: reduce coreBMP on file199 to the scanline loop. -/
theorem c5_red :
    (coreBMP (some file199) allocAll SPIFFS_Image.init).2.canvas.getD 0 none =
      (rowLoop file199 false 54 2 600 199 2 0
        (DecodeState.mk c5s0.canvas 0 0 0 600 0 54)).canvas.getD 0 none := by
  have hparse : parseHeader file199 =
      BmpHeader.mk 54 40 199 2 false 1 24 0 16777216 54 := by decide
  have h := coreBMP_success_canvas file199 allocAll SPIFFS_Image.init
    (by decide) (by decide) (by decide) (by decide) (by decide)
  rw [hparse] at h
  dsimp only at h
  rw [show rowSizeOf 24 199 = 600 from by decide] at h
  rw [show Int.toNat 199 = 199 from by decide] at h
  rw [show 2 % 65536 = 2 from by decide] at h
  rw [show (allocSegs allocAll 199 0 NUM_CANVAS 2).2 = c5s0.canvas
    from rfl] at h
  rw [show sdbufSize = 600 from rfl] at h
  rw [h]

/-- Helper: the initial decode state literal of file199 is c5s0. -/
theorem c5_lit : DecodeState.mk c5s0.canvas 0 0 0 600 0 54 = c5s0 := rfl

/-- Helper: split off the first scanline of file199. -/
theorem c5_split : rowLoop file199 false 54 2 600 199 2 0 c5s0 =
    rowLoop file199 false 54 2 600 199 1 1
      (rowLoop file199 false 54 2 600 199 1 0 c5s0) :=
  rowLoop_add file199 false 54 2 600 199 1 1 0 c5s0

/-- Helper: the first scanline of file199 needs no seek and is one
column loop. -/
theorem c5_row0 : rowLoop file199 false 54 2 600 199 1 0 c5s0 =
    rowLoop file199 false 54 2 600 199 0 1 (colLoop file199 199 c5s0) :=
  rowLoop_succ file199 false 54 2 600 199 0 0 c5s0 (by decide)

/-- Helper: fuel zero ends the first scanline of file199. -/
theorem c5_row0e : rowLoop file199 false 54 2 600 199 0 1
    (colLoop file199 199 c5s0) = colLoop file199 199 c5s0 := rfl

/-- Helper: row 0 of file199 through the precomputed chunk states. -/
theorem c5_chainA : colLoop file199 199 c5s0 = c5s4 := by
  have ha1 : colLoop file199 199 c5s0 = colLoop file199 135 c5s1 := by
    rw [← c5_chunk1]
    exact colLoop_add file199 64 135 c5s0
  have ha2 : colLoop file199 135 c5s1 = colLoop file199 71 c5s2 := by
    rw [← c5_chunk2]
    exact colLoop_add file199 64 71 c5s1
  have ha3 : colLoop file199 71 c5s2 = colLoop file199 7 c5s3 := by
    rw [← c5_chunk3]
    exact colLoop_add file199 64 7 c5s2
  rw [ha1, ha2, ha3]
  exact c5_chunk4

/-- Helper: at row 1 of file199 the file position already equals the row
start, so no seek happens and the stale buffer tail is kept. -/
theorem c5_row1 : rowLoop file199 false 54 2 600 199 1 1 c5s4 =
    rowLoop file199 false 54 2 600 199 0 2 (colLoop file199 199 c5s4) :=
  rowLoop_succ file199 false 54 2 600 199 0 1 c5s4 (by decide)

/-- Helper: fuel zero ends the second scanline of file199. -/
theorem c5_row1e : rowLoop file199 false 54 2 600 199 0 2
    (colLoop file199 199 c5s4) = colLoop file199 199 c5s4 := rfl

/-- Helper: row 1 of file199 through the precomputed chunk states. -/
theorem c5_chainB : colLoop file199 199 c5s4 = c5s8 := by
  have hb1 : colLoop file199 199 c5s4 = colLoop file199 135 c5s5 := by
    rw [← c5_chunk5]
    exact colLoop_add file199 64 135 c5s4
  have hb2 : colLoop file199 135 c5s5 = colLoop file199 71 c5s6 := by
    rw [← c5_chunk6]
    exact colLoop_add file199 64 71 c5s5
  have hb3 : colLoop file199 71 c5s6 = colLoop file199 7 c5s7 := by
    rw [← c5_chunk7]
    exact colLoop_add file199 64 7 c5s6
  rw [hb1, hb2, hb3]
  exact c5_chunk8

/-- C5 (code bug): decoding file199 (top-down, width 199, row stride 600 =
the scratch buffer size, 3 padding bytes per row).  After row 0 the file
position equals row 1 start offset, so no seek occurs and the 3 stale
padding bytes left in the scratch buffer are consumed as row 1 first
pixel: destination pixel (row 1, col 0) (buffer index 199) is
conv565 99 99 99 = 25356 computed from the padding bytes, not
conv565 10 10 10 = 2113 from the actual first pixel of source row 1. -/
theorem c5_padding_decoded :
    ((coreBMP (some file199) allocAll SPIFFS_Image.init).2.canvas.getD 0 none).map
        (fun c => (c.buf.getD 198 0, c.buf.getD 199 0, c.buf.getD 200 0)) =
      some (2113, 25356, 2113) ∧
    conv565 10 10 10 = 2113 ∧ conv565 99 99 99 = 25356 ∧ (25356 : Nat) ≠ 2113 := by
  refine ⟨?_, by decide, by decide, by decide⟩
  rw [c5_red, c5_lit, c5_split, c5_row0, c5_row0e, c5_chainA, c5_row1, c5_row1e,
    c5_chainB]
  rfl

/-- Helper: under the all-succeeding heap oracle the allocation loop
always reports full success. -/
theorem allocSegs_allocAll_fst (w : Int) :
    ∀ (slotsLeft i remaining : Nat),
      (allocSegs allocAll w i slotsLeft remaining).1 = true := by
  intro slotsLeft
  induction slotsLeft with
  | zero => intro i r; rfl
  | succ k ih =>
      intro i r
      by_cases h : r = 0
      · simp [allocSegs, h]
      · simp [allocSegs, h, allocAll, ih]

/-- Helper: when the signature matches, planes is 1, compression is 0 and
depth is 24, coreBMP under the all-succeeding heap oracle returns
IMAGE_SUCCESS: the status is decided before the scanline loop runs. -/
theorem coreBMP_gate_success (f : ByteFile) (img : SPIFFS_Image)
    (hsig : readLE16 f 0 = 0x4D42)
    (hp : (parseHeader f).planes = 1) (hco : (parseHeader f).compression = 0)
    (hd : (parseHeader f).depth = 24) :
    (coreBMP (some f) allocAll img).1 = ImageReturnCode.IMAGE_SUCCESS := by
  simp only [coreBMP, hsig, if_pos (And.intro hp hco), if_pos hd, if_true,
    allocSegs_allocAll_fst, if_pos rfl]

/-- C3 amended: the full pixel decode runs (and, with every allocation
succeeding, loadBMP returns IMAGE_SUCCESS) exactly when the parsed planes
field is 1, compression is 0 and depth is 24; for every other
combination the call returns UNSUPPORTED_FORMAT without running the
scanline loop: the image keeps format IMAGE_NONE and no canvas is
allocated.  The depth >= 16 test of the source is nested inside the
depth == 24 branch and never rejects anything. -/
theorem c3_amended (f : ByteFile) (img : SPIFFS_Image)
    (hsig : readLE16 f 0 = 0x4D42) :
    (((parseHeader f).planes = 1 ∧ (parseHeader f).compression = 0 ∧
        (parseHeader f).depth = 24) →
      (coreBMP (some f) allocAll img).1 = ImageReturnCode.IMAGE_SUCCESS) ∧
    (¬ ((parseHeader f).planes = 1 ∧ (parseHeader f).compression = 0 ∧
        (parseHeader f).depth = 24) →
      (coreBMP (some f) allocAll img).1 = ImageReturnCode.IMAGE_ERR_FORMAT ∧
      (coreBMP (some f) allocAll img).2.format = ImageFormat.IMAGE_NONE ∧
      (coreBMP (some f) allocAll img).2.canvas = List.replicate NUM_CANVAS none) := by
  constructor
  · rintro ⟨hp, hco, hd⟩
    exact coreBMP_gate_success f img hsig hp hco hd
  · intro hng
    by_cases hpc : (parseHeader f).planes = 1 ∧ (parseHeader f).compression = 0
    · have hd : ¬ (parseHeader f).depth = 24 := fun hd => hng ⟨hpc.1, hpc.2, hd⟩
      simp [coreBMP, hsig, if_pos hpc, if_neg hd, SPIFFS_Image.dealloc]
    · simp [coreBMP, hsig, if_neg hpc, SPIFFS_Image.dealloc]

/-- C3 amended, witness: file4 (planes 1, compression 0, depth 24) loads
with IMAGE_SUCCESS; file16bpp (depth 16) is rejected with
IMAGE_ERR_FORMAT and no canvas allocated. -/
theorem c3_amended_witness :
    (coreBMP (some file4) allocAll SPIFFS_Image.init).1 = ImageReturnCode.IMAGE_SUCCESS ∧
    (coreBMP (some file16bpp) allocAll SPIFFS_Image.init).1 = ImageReturnCode.IMAGE_ERR_FORMAT ∧
    (coreBMP (some file16bpp) allocAll SPIFFS_Image.init).2.canvas =
      List.replicate NUM_CANVAS none := by
  refine ⟨(c3_amended file4 SPIFFS_Image.init (by decide)).1 (by decide), ?_, ?_⟩
  · exact ((c3_amended file16bpp SPIFFS_Image.init (by decide)).2 (by decide)).1
  · exact ((c3_amended file16bpp SPIFFS_Image.init (by decide)).2 (by decide)).2.2
/-- C7: the error-code taxonomy.  An unopenable file yields
FILE_NOT_FOUND from both operations; an openable file whose first two
bytes are not the little-endian 0x4D42 signature yields
UNSUPPORTED_FORMAT from both; a valid signature makes bmpDimensions
return SUCCESS with the signed width and absolute height fields read at
offsets 18 and 22, regardless of planes, compression or depth, even for
combinations where loadBMP returns UNSUPPORTED_FORMAT. -/
theorem c7_error_codes :
    (∀ (alloc : Nat → Bool) (img : SPIFFS_Image),
        (coreBMP none alloc img).1 = ImageReturnCode.IMAGE_ERR_FILE_NOT_FOUND) ∧
    bmpDimensions none = (ImageReturnCode.IMAGE_ERR_FILE_NOT_FOUND, none) ∧
    (∀ (f : ByteFile) (alloc : Nat → Bool) (img : SPIFFS_Image),
        readLE16 f 0 ≠ 0x4D42 →
        (coreBMP (some f) alloc img).1 = ImageReturnCode.IMAGE_ERR_FORMAT ∧
        bmpDimensions (some f) = (ImageReturnCode.IMAGE_ERR_FORMAT, none)) ∧
    (∀ (f : ByteFile), readLE16 f 0 = 0x4D42 →
        bmpDimensions (some f) =
          (ImageReturnCode.IMAGE_SUCCESS,
            some (toInt32 (readLE32 f 18),
              if toInt32 (readLE32 f 22) < 0 then -toInt32 (readLE32 f 22)
              else toInt32 (readLE32 f 22)))) ∧
    (∀ (f : ByteFile) (alloc : Nat → Bool) (img : SPIFFS_Image),
        readLE16 f 0 = 0x4D42 →
        ¬ ((parseHeader f).planes = 1 ∧ (parseHeader f).compression = 0 ∧
            (parseHeader f).depth = 24) →
        (coreBMP (some f) alloc img).1 = ImageReturnCode.IMAGE_ERR_FORMAT) := by
  refine ⟨fun alloc img => rfl, rfl, ?_, ?_, ?_⟩
  · intro f alloc img h
    exact ⟨by simp [coreBMP, h], by simp [bmpDimensions, h]⟩
  · intro f h
    simp [bmpDimensions, h]
  · intro f alloc img hsig hng
    by_cases hpc : (parseHeader f).planes = 1 ∧ (parseHeader f).compression = 0
    · have hd : ¬ (parseHeader f).depth = 24 := fun hd => hng ⟨hpc.1, hpc.2, hd⟩
      simp [coreBMP, hsig, if_pos hpc, if_neg hd]
    · simp [coreBMP, hsig, if_neg hpc]

/-- C7 witness: the taxonomy instantiated at concrete inputs: a missing
file, the all-zero file (bad signature), and the depth-16 file (valid
signature; dimensions succeed while loadBMP reports
UNSUPPORTED_FORMAT). -/
theorem c7_error_codes_witness :
    (coreBMP none allocAll SPIFFS_Image.init).1 = ImageReturnCode.IMAGE_ERR_FILE_NOT_FOUND ∧
    (coreBMP (some fileZero) allocAll SPIFFS_Image.init).1 = ImageReturnCode.IMAGE_ERR_FORMAT ∧
    bmpDimensions (some fileZero) = (ImageReturnCode.IMAGE_ERR_FORMAT, none) ∧
    bmpDimensions (some file16bpp) = (ImageReturnCode.IMAGE_SUCCESS, some (1, 1)) ∧
    (coreBMP (some file16bpp) allocAll SPIFFS_Image.init).1 = ImageReturnCode.IMAGE_ERR_FORMAT := by
  refine ⟨c7_error_codes.1 allocAll SPIFFS_Image.init,
    (c7_error_codes.2.2.1 fileZero allocAll SPIFFS_Image.init (by decide)).1,
    (c7_error_codes.2.2.1 fileZero allocAll SPIFFS_Image.init (by decide)).2,
    ?_,
    c7_error_codes.2.2.2.2 file16bpp allocAll SPIFFS_Image.init (by decide) (by decide)⟩
  rw [c7_error_codes.2.2.2.1 file16bpp (by decide)]
  decide

/-- Helper: small uint16 values reinterpret as themselves in int16. -/
theorem toInt16_of_small (n : Nat) (h : n < 32768) : toInt16 n = n := by
  unfold toInt16
  rw [Nat.mod_eq_of_lt (by omega), if_pos (by omega)]

/-- Helper: a small nonnegative int converts to uint16 unchanged. -/
theorem u16ofInt_of_small (W : Int) (h0 : 0 ≤ W) (h1 : W < 65536) :
    u16ofInt W = W.toNat := by
  show (W % 65536).toNat = W.toNat
  omega

/-- Helper: the height normalization of bmpDimensions is the natAbs. -/
theorem if_neg_natAbs (a : Int) :
    (if a < 0 then -a else a) = (a.natAbs : Int) := by
  split <;> omega
/-- C6 amended: for a file whose parsed width W satisfies 0 <= W < 2^15
and parsed absolute height H satisfies H < 2^15, any successful loadBMP
(over any allocation oracle) produces a handle whose width()/height()
equal the width/height that bmpDimensions reports for the same file.
Outside those bounds the uint16 handle fields and the int16 return type
truncate (see the counterexample). -/
theorem c6_amended (f : ByteFile) (alloc : Nat → Bool) (img : SPIFFS_Image)
    (W : Int) (H : Nat)
    (hW : (parseHeader f).bmpWidth = W) (hW0 : 0 ≤ W) (hW1 : W < 32768)
    (hH : (parseHeader f).bmpHeight = H) (hH1 : H < 32768)
    (hsucc : (coreBMP (some f) alloc img).1 = ImageReturnCode.IMAGE_SUCCESS) :
    bmpDimensions (some f) = (ImageReturnCode.IMAGE_SUCCESS, some (W, (H : Int))) ∧
    (coreBMP (some f) alloc img).2.width = W ∧
    (coreBMP (some f) alloc img).2.height = (H : Int) := by
  by_cases hsig : readLE16 f 0 = 0x4D42
  · by_cases hpc : (parseHeader f).planes = 1 ∧ (parseHeader f).compression = 0
    · by_cases hd : (parseHeader f).depth = 24
      · by_cases hal : (allocSegs alloc (parseHeader f).bmpWidth 0 NUM_CANVAS
            ((parseHeader f).bmpHeight % 65536)).1 = true
        · refine ⟨?_, ?_, ?_⟩
          · have hw' : toInt32 (readLE32 f 18) = W := hW
            have hh' : (toInt32 (readLE32 f 22)).natAbs = H := hH
            simp [bmpDimensions, hsig, if_neg_natAbs, hw', hh']
          · simp only [coreBMP, hsig, if_pos hpc, if_pos hd, hal, if_true, if_pos rfl,
              SPIFFS_Image.width]
            rw [hW]
            rw [u16ofInt_of_small W hW0 (by omega)]
            simp only [if_pos (by decide : ImageFormat.IMAGE_16 ≠ ImageFormat.IMAGE_NONE),
              if_pos rfl]
            rw [toInt16_of_small W.toNat (by omega)]
            exact Int.toNat_of_nonneg hW0
          · simp only [coreBMP, hsig, if_pos hpc, if_pos hd, hal, if_true, if_pos rfl,
              SPIFFS_Image.height]
            rw [hH, Nat.mod_eq_of_lt (by omega)]
            simp only [if_pos (by decide : ImageFormat.IMAGE_16 ≠ ImageFormat.IMAGE_NONE),
              if_pos rfl]
            exact toInt16_of_small H (by omega)
        · simp [coreBMP, hsig, if_pos hpc, if_pos hd, hal] at hsucc
      · simp [coreBMP, hsig, if_pos hpc, if_neg hd] at hsucc
    · simp [coreBMP, hsig, if_neg hpc] at hsucc
  · simp [coreBMP, hsig] at hsucc

/-- C6 amended, witness: the 2 x 2 BMP file4 loads successfully and both
the query and the handle report width 2, height 2. -/
theorem c6_amended_witness :
    bmpDimensions (some file4) = (ImageReturnCode.IMAGE_SUCCESS, some (2, 2)) ∧
    (coreBMP (some file4) allocAll SPIFFS_Image.init).2.width = 2 ∧
    (coreBMP (some file4) allocAll SPIFFS_Image.init).2.height = 2 :=
  c6_amended file4 allocAll SPIFFS_Image.init 2 2 (by decide) (by decide)
    (by decide) (by decide) (by decide) (by decide)

/-- Helper: drawLoop produces nothing on a run of NULL slots. -/
theorem drawLoop_replicate_none (x : Int) (k : Nat) :
    ∀ (y : Int), drawLoop x y (List.replicate k none) = [] := by
  induction k with
  | zero => intro y; rfl
  | succ n ih => intro y; exact ih y

/-- Helper: the int16 wrap of draw is the identity while y stays in
range. -/
theorem i16wrap_of_range (i : Int) (h0 : -32768 ≤ i) (h1 : i ≤ 32767) :
    i16wrap i = i := by
  show (i + 32768) % 65536 - 32768 = i
  omega

/-- Helper: drawLoop over an allocated prefix followed by NULL slots
produces exactly the spec stacking, while y stays within int16 range. -/
theorem drawLoop_spec (cs : List GFXcanvas16) :
    ∀ (k : Nat) (x y : Int), -32768 ≤ y →
      y + (CANVAS_HEIGHT : Int) * cs.length ≤ 32767 →
      drawLoop x y (cs.map some ++ List.replicate k none) = drawSpecBlits x y cs := by
  have hch : (CANVAS_HEIGHT : Int) = 20 := rfl
  induction cs with
  | nil => intro k x y _ _; exact drawLoop_replicate_none x k y
  | cons c rest ih =>
      intro k x y hy0 hy1
      have hlen : ((c :: rest).length : Int) = (rest.length : Int) + 1 := by
        simp
      show (⟨x, y, c.w16, c.h16, c.buf⟩ : Blit) ::
          drawLoop x (i16wrap (y + (CANVAS_HEIGHT : Int)))
            (rest.map some ++ List.replicate k none) =
        (⟨x, y, c.w16, c.h16, c.buf⟩ : Blit) ::
          drawSpecBlits x (y + (CANVAS_HEIGHT : Int)) rest
      rw [hlen] at hy1
      rw [i16wrap_of_range (y + (CANVAS_HEIGHT : Int)) (by omega)
        (by nlinarith [Int.natCast_nonneg rest.length])]
      rw [ih k x (y + (CANVAS_HEIGHT : Int)) (by omega)
        (by nlinarith [Int.natCast_nonneg rest.length])]

/-- C9: draw on a handle in the supported decoded format blits each
allocated segment buffer in order, the first at (x, y), advancing y by
the fixed CANVAS_HEIGHT after each segment regardless of a short last
segment (for y values within int16 range); draw on a handle with format
NONE emits no blits. -/
theorem c9_draw :
    (∀ (img : SPIFFS_Image) (x y : Int),
        img.format = ImageFormat.IMAGE_NONE → img.draw x y = []) ∧
    (∀ (img : SPIFFS_Image) (x y : Int) (cs : List GFXcanvas16) (k : Nat),
        img.format = ImageFormat.IMAGE_16 →
        img.canvas = cs.map some ++ List.replicate k none →
        -32768 ≤ y → y + (CANVAS_HEIGHT : Int) * cs.length ≤ 32767 →
        img.draw x y = drawSpecBlits x y cs) := by
  constructor
  · intro img x y h
    simp [SPIFFS_Image.draw, h]
  · intro img x y cs k hf hc hy0 hy1
    simp only [SPIFFS_Image.draw, hf, if_pos rfl, hc]
    exact drawLoop_spec cs k x y hy0 hy1

/-- C9 witness: a two-segment handle (second segment shorter) draws two
blits at y = 7 and y = 27; an empty handle draws nothing. -/
theorem c9_draw_witness :
    SPIFFS_Image.draw
        ⟨9, 25, [(⟨1, 20, [11]⟩ : GFXcanvas16), ⟨1, 5, [22]⟩].map some ++
          List.replicate 10 none, ImageFormat.IMAGE_16⟩ 3 7 =
      [⟨3, 7, 1, 20, [11]⟩, ⟨3, 27, 1, 5, [22]⟩] ∧
    SPIFFS_Image.draw ⟨9, 25, List.replicate 12 none, ImageFormat.IMAGE_NONE⟩ 3 7 = [] := by
  constructor
  · rw [c9_draw.2 _ 3 7 [⟨1, 20, [11]⟩, ⟨1, 5, [22]⟩] 10 rfl rfl (by decide) (by decide)]
    decide
  · exact c9_draw.1 _ 3 7 rfl

/-- Helper: a pixel step from a state whose canvas index is at least
NUM_CANVAS (and below 255) keeps currentCanvas where it is, keeps the
index at or above NUM_CANVAS (it grows by at most one), and modifies no
canvas slot other than the one currentCanvas points at. -/
theorem pixelStep_past_end_core (f : ByteFile) (s : DecodeState)
    (h12 : NUM_CANVAS ≤ s.curIdx) (hb : s.curIdx + 1 ≤ 255)
    (hnr : ¬ sdbufSize ≤ s.srcidx) :
    (pixelStep f s).cur = s.cur ∧
    NUM_CANVAS ≤ (pixelStep f s).curIdx ∧
    (pixelStep f s).curIdx ≤ s.curIdx + 1 ∧
    (∀ j, j ≠ s.cur → (pixelStep f s).canvas.getD j none = s.canvas.getD j none) := by
  simp only [pixelStep, if_neg hnr]
  rcases hm : s.canvas.getD s.cur none with _ | c
  · split
    · rw [Nat.mod_eq_of_lt (by omega)]
      dsimp only
      exact ⟨if_neg (by omega), by omega, by omega, fun j _ => rfl⟩
    · dsimp only
      exact ⟨rfl, h12, by omega, fun j _ => rfl⟩
  · split
    · rw [Nat.mod_eq_of_lt (by omega)]
      dsimp only
      exact ⟨if_neg (by omega), by omega, by omega,
        fun j hj => getD_set_ne _ _ _ _ _ (fun h => hj h.symm)⟩
    · dsimp only
      exact ⟨rfl, h12, by omega,
        fun j hj => getD_set_ne _ _ _ _ _ (fun h => hj h.symm)⟩

/-- Helper: same as pixelStep_past_end_core but with the refill case
included. -/
theorem pixelStep_past_end (f : ByteFile) (s : DecodeState)
    (h12 : NUM_CANVAS ≤ s.curIdx) (hb : s.curIdx + 1 ≤ 255) :
    (pixelStep f s).cur = s.cur ∧
    NUM_CANVAS ≤ (pixelStep f s).curIdx ∧
    (pixelStep f s).curIdx ≤ s.curIdx + 1 ∧
    (∀ j, j ≠ s.cur → (pixelStep f s).canvas.getD j none = s.canvas.getD j none) := by
  by_cases hr : sdbufSize ≤ s.srcidx
  · rw [pixelStep_refill f s hr]
    exact pixelStep_past_end_core f _ h12 hb (by show ¬ sdbufSize ≤ 0; decide)
  · exact pixelStep_past_end_core f s h12 hb hr

/-- C10 amended: once the write offset has advanced the uint8 segment
index past the last slot, (i) as long as the index plus the remaining
pixel count stays at most 255 the pixel loop keeps writing, the writes
land only in the canvas currentCanvas still points at (the last
segment), and the index never drops back below NUM_CANVAS; (ii) the next
pixel after the rollover is stored at linear offset 0 of that canvas,
overwriting what was there; (iii) the scanline loop stops at the next row
boundary; and (iv) the call still returns IMAGE_SUCCESS, since the status
was fixed before the pixel loop.  (Without the bound in (i) the uint8
index wraps past 255 back below NUM_CANVAS and writing re-enters earlier
segments; see the counterexample.) -/
theorem c10_amended :
    (∀ (f : ByteFile) (n : Nat) (s : DecodeState),
        NUM_CANVAS ≤ s.curIdx → s.curIdx + n ≤ 255 →
        (colLoop f n s).cur = s.cur ∧
        NUM_CANVAS ≤ (colLoop f n s).curIdx ∧
        (∀ j, j ≠ s.cur →
          (colLoop f n s).canvas.getD j none = s.canvas.getD j none)) ∧
    (∀ (f : ByteFile) (s : DecodeState) (c : GFXcanvas16),
        NUM_CANVAS ≤ s.curIdx → s.destidx = 0 → s.srcidx < sdbufSize →
        s.canvas.getD s.cur none = some c →
        (pixelStep f s).canvas.getD s.cur none =
          some ⟨c.w16, c.h16, c.buf.set 0
            (conv565 (fileByte f (s.bufStart + s.srcidx + 2))
              (fileByte f (s.bufStart + s.srcidx + 1))
              (fileByte f (s.bufStart + s.srcidx)))⟩) ∧
    (∀ (f : ByteFile) (fl : Bool) (off h rs lw n row : Nat) (s : DecodeState),
        NUM_CANVAS ≤ s.curIdx → rowLoop f fl off h rs lw n row s = s) ∧
    (∀ (f : ByteFile) (img : SPIFFS_Image), readLE16 f 0 = 0x4D42 →
        (parseHeader f).planes = 1 → (parseHeader f).compression = 0 →
        (parseHeader f).depth = 24 →
        (coreBMP (some f) allocAll img).1 = ImageReturnCode.IMAGE_SUCCESS) := by
  refine ⟨?_, ?_, ?_, ?_⟩
  · intro f n
    induction n with
    | zero => exact fun s h12 _ => ⟨rfl, h12, fun j _ => rfl⟩
    | succ k ih =>
        intro s h12 hb
        have hstep := pixelStep_past_end f s h12 (by omega)
        have hrec := ih (pixelStep f s) hstep.2.1 (by omega)
        refine ⟨hrec.1.trans hstep.1, hrec.2.1, fun j hj => ?_⟩
        have hj2 : j ≠ (pixelStep f s).cur := by rw [hstep.1]; exact hj
        exact (hrec.2.2 j hj2).trans (hstep.2.2.2 j hj)
  · intro f s c h12 hd hsrc hc
    have hlen : s.cur < s.canvas.length := lt_length_of_getD_some _ _ _ hc
    have hns : ¬ (sdbufSize ≤ s.srcidx) := Nat.not_le.mpr hsrc
    rw [← hd]
    simp only [pixelStep, if_neg hns, hc]
    split <;> exact getD_set_self _ _ _ _ hlen
  · intro f fl off h rs lw n row s h12
    exact rowLoop_halt f fl off h rs lw n row s (by omega)
  · intro f img hsig hp hco hd
    exact coreBMP_gate_success f img hsig hp hco hd

/-- C10 amended, witness: three pixel steps from a state just past the
last slot keep writing into slot 11, leave the index at or above
NUM_CANVAS and do not touch slot 0; the first such write stores the
converted pixel at offset 0 of slot 11; a scanline loop started in that
state stops immediately; and the 2 x 2 BMP decode returns
IMAGE_SUCCESS. -/
theorem c10_amended_witness :
    (colLoop fileZero 3 c10WitState).cur = 11 ∧
    NUM_CANVAS ≤ (colLoop fileZero 3 c10WitState).curIdx ∧
    (colLoop fileZero 3 c10WitState).canvas.getD 0 none =
      c10WitState.canvas.getD 0 none ∧
    (pixelStep fileZero c10WitState).canvas.getD 11 none = some ⟨1, 1, [0]⟩ ∧
    rowLoop fileZero true 54 5 4 1 7 0 c10WitState = c10WitState ∧
    (coreBMP (some file4) allocAll SPIFFS_Image.init).1 = ImageReturnCode.IMAGE_SUCCESS := by
  have h1 := c10_amended.1 fileZero 3 c10WitState (by decide) (by decide)
  refine ⟨h1.1, h1.2.1, h1.2.2 0 (by decide), ?_, ?_, ?_⟩
  · show (pixelStep fileZero c10WitState).canvas.getD c10WitState.cur none =
      some ⟨1, 1, [0]⟩
    rw [c10_amended.2.1 fileZero c10WitState ⟨1, 1, [5]⟩ (by decide) (by decide)
      (by decide) (by decide)]
    decide
  · exact c10_amended.2.2.1 fileZero true 54 5 4 1 7 0 c10WitState (by decide)
  · exact c10_amended.2.2.2 file4 SPIFFS_Image.init (by decide) (by decide)
      (by decide) (by decide)
